import Mathlib

/-!
Verification development for the beanhub-extract extraction framework.

The Python sources under `beanhub_extract/extractors/` are shallowly embedded:
* text streams become a `PyFile` record (content, read position, optional
  name, text/binary mode); reads are pure functions of the record;
* fallible Python code becomes `Except PyErr`-valued functions, and the
  `try/except` blocks of the source become explicit `match`es on the error;
* `decimal.Decimal` values become rationals (`ℚ`) with a parser for the
  sign/digits/fraction forms the statements use (exponent notation is not
  modelled); `datetime.date` becomes a `Date` record with the validity
  checks and day-increment the code relies on;
* SHA-256 is kept abstract: fingerprint functions take the hex-digest
  function as a parameter `h : List String → String` applied to the list of
  byte chunks the source feeds to `hashlib.sha256`;
* the csv module's `DictReader` is modelled by naive delimiter splitting
  (quoted fields are not modelled; the statement exports contain none);
* reading a binary-mode stream where the plugin works with text (or the
  other way round) raises in Python at the first str/bytes mixup; the model
  raises `typeError` at the read itself, which is observationally the same
  for the detect/fingerprint wrappers that catch all exceptions.
-/

set_option maxRecDepth 100000

namespace BeanhubExtract

/-- Python exception classes that the extractors raise or catch. -/
inductive PyErr where
  | valueError
  | keyError
  | indexError
  | attributeError
  | invalidOperation
  | typeError
  | otherError
deriving DecidableEq, Repr

/-- A calendar date, as `datetime.date`. -/
structure Date where
  year : Nat
  month : Nat
  day : Nat
deriving DecidableEq, Repr

/-- Gregorian leap-year rule used by `datetime`. -/
def isLeapYear (y : Nat) : Bool :=
  (y % 4 == 0 && y % 100 != 0) || y % 400 == 0

/-- Number of days of a month, as `datetime` validates it. -/
def daysInMonth (y m : Nat) : Nat :=
  if m = 2 then (if isLeapYear y then 29 else 28)
  else if m = 4 ∨ m = 6 ∨ m = 9 ∨ m = 11 then 30
  else 31

/-- `datetime.date(y, m, d)`: validates ranges, raises `ValueError` otherwise. -/
def mkDate (y m d : Int) : Except PyErr Date :=
  if 1 ≤ y ∧ y ≤ 9999 ∧ 1 ≤ m ∧ m ≤ 12 ∧ 1 ≤ d ∧ d ≤ (daysInMonth y.toNat m.toNat : Int) then
    .ok ⟨y.toNat, m.toNat, d.toNat⟩
  else
    .error .valueError

/-- `d + datetime.timedelta(days=1)`. -/
def nextDay (d : Date) : Date :=
  if d.day < daysInMonth d.year d.month then ⟨d.year, d.month, d.day + 1⟩
  else if d.month < 12 then ⟨d.year, d.month + 1, 1⟩
  else ⟨d.year + 1, 1, 1⟩

/-- Chronological comparison of dates. -/
def dateLe (a b : Date) : Bool :=
  a.year < b.year ∨ (a.year = b.year ∧
    (a.month < b.month ∨ (a.month = b.month ∧ a.day ≤ b.day)))

/-- Left-pad the decimal rendering of `n` with zeros to width `w`. -/
def padNum (w n : Nat) : String :=
  let s := toString n
  String.mk (List.replicate (w - s.length) '0') ++ s

/-- `strftime("%Y%m%d")`. -/
def fmtYMD (d : Date) : String :=
  padNum 4 d.year ++ padNum 2 d.month ++ padNum 2 d.day

/-- `strftime("%Y-%m-%d")` / `date.isoformat()`. -/
def fmtISO (d : Date) : String :=
  padNum 4 d.year ++ "-" ++ padNum 2 d.month ++ "-" ++ padNum 2 d.day

/-- How Python renders an optional string inside an f-string (`None` prints). -/
def optStr : Option String → String
  | none => "None"
  | some s => s

/-- Whitespace as stripped by `str.strip()`. -/
def isPyWs (c : Char) : Bool :=
  c = ' ' ∨ c = '\t' ∨ c = '\n' ∨ c = '\r' ∨ c = '\x0b' ∨ c = '\x0c'

/-- `str.strip()` on a character list. -/
def stripChars (l : List Char) : List Char :=
  ((l.dropWhile isPyWs).reverse.dropWhile isPyWs).reverse

/-- `str.strip()`. -/
def pyStrip (s : String) : String :=
  String.mk (stripChars s.data)

/-- Does `pre` start `l`? -/
def listStartsWith : List Char → List Char → Bool
  | [], _ => true
  | _ :: _, [] => false
  | a :: as, b :: bs => a = b && listStartsWith as bs

/-- Substring containment on character lists (Python `needle in hay`). -/
def listHasSub (needle hay : List Char) : Bool :=
  match hay with
  | [] => listStartsWith needle []
  | _ :: t => listStartsWith needle hay || listHasSub needle t

/-- Python `needle in hay` for strings. -/
def strHasSub (hay needle : String) : Bool :=
  listHasSub needle.data hay.data

/-- Split a character list at every occurrence of `c` (like `str.split(c)`). -/
def splitChar (c : Char) : List Char → List (List Char)
  | [] => [[]]
  | x :: xs =>
    match splitChar c xs with
    | [] => [[]]
    | r :: rs => if x = c then [] :: r :: rs else (x :: r) :: rs

/-- `str.split(sep)` for a one-character separator, as strings. -/
def splitStr (c : Char) (s : String) : List String :=
  (splitChar c s.data).map String.mk

/-- The lines of a text file as Python iteration / `readlines` produce them,
without the trailing newline characters (the extractors immediately strip or
substring-match each line, so the terminators are irrelevant). -/
def pyLines (s : String) : List String :=
  match (splitChar '\n' s.data).reverse with
  | [] => []
  | last :: front => (if last = [] then front.reverse else (last :: front).reverse).map String.mk

/-- Is every character a decimal digit? -/
def allDigits (l : List Char) : Bool :=
  l.all (fun c => '0' ≤ c ∧ c ≤ '9')

/-- Numeric value of a digit list. -/
def digitsVal (l : List Char) : Nat :=
  l.foldl (fun acc c => acc * 10 + (c.toNat - '0'.toNat)) 0

/-- Python `int(str)`: optional surrounding whitespace, optional sign, at
least one digit; anything else raises `ValueError`. -/
def pyInt (s : String) : Except PyErr Int :=
  match stripChars s.data with
  | [] => .error .valueError
  | c :: rest =>
    if c = '-' then
      if rest ≠ [] ∧ allDigits rest then .ok (-(digitsVal rest : Int)) else .error .valueError
    else if c = '+' then
      if rest ≠ [] ∧ allDigits rest then .ok (digitsVal rest : Int) else .error .valueError
    else
      if allDigits (c :: rest) then .ok (digitsVal (c :: rest) : Int) else .error .valueError

/-- A `decimal.Decimal` value: integer mantissa and number of fraction
digits, denoting `man / 10 ^ exp`. Exact, never binary floating point. -/
structure Dec where
  man : Int
  exp : Nat
deriving DecidableEq, Repr

/-- The rational number a `Dec` denotes. -/
def Dec.toRat (d : Dec) : ℚ := (d.man : ℚ) / (10 ^ d.exp : ℚ)

/-- Python `Decimal.__neg__`. -/
def Dec.neg (d : Dec) : Dec := ⟨-d.man, d.exp⟩

/-- Python `==` on decimals: numeric equality, scale-insensitive. -/
def Dec.nEq (a b : Dec) : Bool := a.man * 10 ^ b.exp = b.man * 10 ^ a.exp

/-- Parse an unsigned digit string with at most one decimal point. -/
def decDigits (l : List Char) : Except PyErr Dec :=
  match splitChar '.' l with
  | [ip] =>
    if ip ≠ [] ∧ allDigits ip then .ok ⟨(digitsVal ip : Int), 0⟩ else .error .invalidOperation
  | [ip, fp] =>
    if (ip ≠ [] ∨ fp ≠ []) ∧ allDigits ip ∧ allDigits fp then
      .ok ⟨(digitsVal ip * 10 ^ fp.length + digitsVal fp : Nat), fp.length⟩
    else .error .invalidOperation
  | _ => .error .invalidOperation

/-- Python `decimal.Decimal(str)` restricted to the sign/digits/fraction
forms appearing in statement exports; a failure is `InvalidOperation`.
Exponent notation is not modelled. -/
def pyDecimal (s : String) : Except PyErr Dec :=
  match stripChars s.data with
  | [] => .error .invalidOperation
  | c :: rest =>
    if c = '-' then (decDigits rest).map Dec.neg
    else if c = '+' then decDigits rest
    else decDigits (c :: rest)

/-- `decimal.Decimal(x)` where `x` may be `None` (a missing dict value):
Python raises `TypeError` on `None`. -/
def pyDecimalOpt : Option String → Except PyErr Dec
  | none => .error .typeError
  | some s => pyDecimal s

instance {ε α : Type} [DecidableEq ε] [DecidableEq α] : DecidableEq (Except ε α) := fun x y =>
  match x, y with
  | .ok a, .ok b =>
    if h : a = b then .isTrue (by rw [h]) else .isFalse (fun he => by cases he; exact h rfl)
  | .error a, .error b =>
    if h : a = b then .isTrue (by rw [h]) else .isFalse (fun he => by cases he; exact h rfl)
  | .ok _, .error _ => .isFalse (fun he => by cases he)
  | .error _, .ok _ => .isFalse (fun he => by cases he)

/-- `lst[i]` with Python's `IndexError`. -/
def listIdx (l : List α) (i : Nat) : Except PyErr α :=
  match l.get? i with
  | some x => .ok x
  | none => .error .indexError

/-- The opening brace character, written numerically. -/
def lbrace : Char := Char.ofNat 123

/-- The closing brace character, written numerically. -/
def rbrace : Char := Char.ofNat 125

/-- If `b` is the text following a doubled opening brace, the placeholder
field name it starts with, provided a doubled closing brace follows. -/
def tfClose (b : List Char) : Option String :=
  match splitChar rbrace b with
  | f :: g :: _ => if g = [] then some (String.mk (stripChars f)) else none
  | _ => none

/-- Scan the segments between single opening braces: an empty segment marks
a doubled opening brace, whose successor segment starts a placeholder. -/
def tfScan : List (List Char) → List String
  | [] => []
  | [_] => []
  | a :: b :: rest =>
    if a = [] then
      match tfClose b with
      | some f => f :: tfScan rest
      | none => tfScan rest
    else tfScan (b :: rest)

/-- The `field` names referenced by the Jinja-style placeholders of a
default import-id template string. -/
def templateFields (s : String) : List String :=
  match splitChar lbrace s.data with
  | [] => []
  | _ :: rest => tfScan rest

/-- The caller-owned seekable stream an extractor instance wraps
(`self.input_file`): its full contents, the current read position (a
character offset), the optional `name` attribute, and whether it was opened
in binary mode. -/
structure PyFile where
  content : String
  pos : Nat := 0
  name : Option String := none
  binary : Bool := false
deriving DecidableEq, Repr

/-- `f.seek(0)` (also `f.seek(os.SEEK_SET)`, since `os.SEEK_SET == 0`). -/
def seekStart (s : PyFile) : PyFile := { s with pos := 0 }

/-- `f.read()` where the plugin expects text; on a binary-mode stream the
subsequent str/bytes mixup raises, modelled as `TypeError` at the read. -/
def readAllText (s : PyFile) : Except PyErr (String × PyFile) :=
  if s.binary then .error .typeError
  else .ok (String.mk (s.content.data.drop s.pos), { s with pos := s.content.data.length })

/-- `f.read(n)` where the plugin expects text. -/
def readNText (n : Nat) (s : PyFile) : Except PyErr (String × PyFile) :=
  if s.binary then .error .typeError
  else .ok (String.mk ((s.content.data.drop s.pos).take n),
            { s with pos := min (s.pos + n) s.content.data.length })

/-- A row produced by `csv.DictReader`: each header field name paired with
the row's value, `none` standing for the `restval=None` fill of a short
row. -/
abbrev Row := List (String × Option String)

/-- Zip header fields with the split values of one line; missing trailing
values become `None` (`csv.DictReader`'s `restval`), extra values are
dropped (they go under the `None` key, which no extractor reads). -/
def zipRestval : List String → List String → Row
  | [], _ => []
  | f :: fs, [] => (f, none) :: zipRestval fs []
  | f :: fs, v :: vs => (f, some v) :: zipRestval fs vs

/-- `row[key]` on a `DictReader` row: `KeyError` when the header lacks the
column, otherwise the (possibly `None`) value. -/
def rowGet (r : Row) (k : String) : Except PyErr (Option String) :=
  match r.find? (fun p => p.1 == k) with
  | some p => .ok p.2
  | none => .error .keyError

/-- `csv.DictReader(f, delimiter=d).fieldnames`: the split first line, or
`None` for an empty file. Quoted fields are not modelled. -/
def dictFieldnames (d : Char) (content : String) : Option (List String) :=
  (pyLines content).head?.map (splitStr d)

/-- The rows of `csv.DictReader(f, delimiter=d)`: every line after the
header, blank lines skipped (the csv module yields `[]` for them and
`DictReader` drops empty rows). -/
def dictRows (d : Char) (content : String) : List Row :=
  match pyLines content with
  | [] => []
  | header :: rest =>
    (rest.filter (fun l => l ≠ "")).map (fun l => zipRestval (splitStr d header) (splitStr d l))

/-- A Python `dict` with string keys and values, in insertion order. -/
abbrev SDict := List (String × String)

/-- `d[k] = v`: overwrite in place or append. -/
def dsetD (d : SDict) (k v : String) : SDict :=
  if (d.find? (fun p => p.1 == k)).isSome then
    d.map (fun p => if p.1 == k then (k, v) else p)
  else d ++ [(k, v)]

/-- `d.get(k)`. -/
def dget (d : SDict) (k : String) : Option String :=
  (d.find? (fun p => p.1 == k)).map (fun p => p.2)

/-- `d.get(k, dflt)`. -/
def dgetD (d : SDict) (k dflt : String) : String :=
  (dget d k).getD dflt

/-- `d.get(k)` on a dict whose values may be `None`: `none` when the key is
missing, `some v` when present with value `v`. -/
def odGet (d : Row) (k : String) : Option (Option String) :=
  (d.find? (fun p => p.1 == k)).map (fun p => p.2)

/-- `d.get(k, dflt)` on a dict whose values may be `None`. -/
def odGetD (d : Row) (k dflt : String) : Option String :=
  match odGet d k with
  | none => some dflt
  | some v => v

/-- `d.get(k)` collapsed to the value (missing key and `None` value agree). -/
def odGetJ (d : Row) (k : String) : Option String :=
  match odGet d k with
  | none => none
  | some v => v

/-- `d[k] = v` on a dict whose values may be `None`. -/
def odSet (d : Row) (k : String) (v : Option String) : Row :=
  if (d.find? (fun p => p.1 == k)).isSome then
    d.map (fun p => if p.1 == k then (k, v) else p)
  else d ++ [(k, v)]

/-- `x.strip()` where `x` may be `None`: Python raises `AttributeError`. -/
def stripOpt : Option String → Except PyErr String
  | none => .error .attributeError
  | some s => .ok (pyStrip s)

/-- Python truthiness of an optional string (`None` and `""` are falsy). -/
def truthyO : Option String → Bool
  | none => false
  | some s => s ≠ ""

/-- `str.upper()` (ASCII suffices for the markers matched). -/
def pyUpper (s : String) : String := String.mk (s.data.map Char.toUpper)

/-- `str.lower()` (ASCII suffices for the markers matched). -/
def pyLower (s : String) : String := String.mk (s.data.map Char.toLower)

/-- Strict chronological comparison of dates. -/
def dateLt (a b : Date) : Bool := dateLe a b ∧ ¬ dateLe b a

/-- Python `min` over a list of dates: the first minimal element. -/
def minDate : List Date → Option Date
  | [] => none
  | d :: rest => some (rest.foldl (fun a b => if dateLt b a then b else a) d)

/-- Modelled from the spec: the canonical `Transaction` record of §3 (the
repository's `data_types` module is not under `src/`, only its importers
are); one economic event or one synthesized balance assertion. Optional
fields default to null, `desc` to the empty string, `lineno` to 0 — the
plugins' constructor calls rely on exactly these defaults. -/
structure Transaction where
  extractor : String
  file : Option String := none
  lineno : Nat := 0
  reversed_lineno : Option Int := none
  transaction_id : Option String := none
  date : Option Date := none
  post_date : Option Date := none
  desc : String := ""
  amount : Dec := ⟨0, 0⟩
  type : Option String := none
  note : Option String := none
  currency : Option String := none
  category : Option String := none
  source_account : Option String := none
  last_four_digits : Option String := none
  reference : Option String := none
  extra : Option (List (String × Option String)) := none
deriving DecidableEq, Repr

/-- Modelled from the spec: the `Fingerprint` record of §3 (`data_types`
module not under `src/`): the anchor row's date and the hex digest of its
canonicalized field subset; equal iff both fields are equal. -/
structure Fingerprint where
  starting_date : Date
  first_row_hash : String
deriving DecidableEq, Repr

/-- The exception classes of the lenient plugins' per-row catch
`except (ValueError, KeyError, decimal.InvalidOperation, IndexError)`. -/
def caughtLenient : PyErr → Bool
  | .valueError | .keyError | .invalidOperation | .indexError => true
  | _ => false

/-- Run a generator-style per-row loop: `step i x` either yields a
transaction, silently skips the row (`ok none`, a `continue`), or raises;
a raised error in `caught` continues with the next row, any other error
ends the sequence with that error after the transactions already yielded. -/
def runLoop (step : Nat → α → Except PyErr (Option Transaction)) (caught : PyErr → Bool) :
    Nat → List α → List Transaction × Option PyErr
  | _, [] => ([], none)
  | i, x :: rest =>
    match step i x with
    | .ok none => runLoop step caught (i + 1) rest
    | .ok (some t) =>
      let r := runLoop step caught (i + 1) rest
      (t :: r.1, r.2)
    | .error e =>
      if caught e then runLoop step caught (i + 1) rest
      else ([], some e)

namespace WSECU

def EXTRACTOR_NAME : String := "wsecu"

def DEFAULT_IMPORT_ID : String :=
  "wsecu:\x7b\x7b source_account \x7d\x7d:\x7b\x7b reversed_lineno \x7d\x7d"

def ALL_FIELDS : List String :=
  ["Account number", "Date", "Description", "Category", "Note", "Amount", "Balance"]

/-- `parse_date`: MM/DD/YYYY. A `None` argument (a missing csv value)
raises `AttributeError` at `.split`; Python evaluates `int(parts[2])`,
`int(parts[0])`, `int(parts[1])` left to right, then validates the date. -/
def parse_date : Option String → Except PyErr Date
  | none => .error .attributeError
  | some s => do
    let parts := splitStr '/' s
    let p2 ← listIdx parts 2
    let y ← pyInt p2
    let p0 ← listIdx parts 0
    let m ← pyInt p0
    let p1 ← listIdx parts 1
    let d ← pyInt p1
    mkDate y m d

/-- Read position after `csv.DictReader` has consumed the header line of
the rewound stream (text iteration consumes through the newline). -/
def posAfterHeader (content : String) : Nat :=
  match splitChar '\n' content.data with
  | [] => 0
  | l :: rest => l.length + (if rest = [] then 0 else 1)

/-- The `try` body of `detect`: rewind, build a `DictReader`, compare its
`fieldnames` (`None` for an empty file) against `ALL_FIELDS`. -/
def detectBody (s : PyFile) : Except PyErr (Bool × PyFile) :=
  let s0 := seekStart s
  if s0.binary then .error .typeError
  else .ok (dictFieldnames ',' s0.content == some ALL_FIELDS,
            { s0 with pos := posAfterHeader s0.content })

/-- `detect`: any exception from the body is converted to `False`. -/
def detect (s : PyFile) : Bool × PyFile :=
  match detectBody s with
  | .ok r => r
  | .error _ => (false, seekStart s)

/-- The row scan of `_find_most_recent_transaction`: the first row whose
`Date` field parses; `ValueError`/`IndexError` from the parse are caught
per row, any other error propagates. -/
def findMostRecentRows : List Row → Except PyErr (Option Row)
  | [] => .ok none
  | row :: rest => do
    let v ← rowGet row "Date"
    match parse_date v with
    | .ok _ => .ok (some row)
    | .error .valueError => findMostRecentRows rest
    | .error .indexError => findMostRecentRows rest
    | .error e => .error e

/-- `_find_most_recent_transaction`: rewind and scan the csv rows. Since
the WSECU csv is ordered most-recent-first, the first valid row is the
most recent transaction. -/
def _find_most_recent_transaction (s : PyFile) : Except PyErr (Option Row) :=
  if s.binary then .error .typeError
  else findMostRecentRows (dictRows ',' (seekStart s).content)

/-- `row[field].encode("utf8")` chunks for `field` in `fieldnames`; a
`None` value raises `AttributeError` at `.encode`. -/
def hashChunks (row : Row) : List String → Except PyErr (List String)
  | [] => .ok []
  | f :: fs => do
    let v ← rowGet row f
    match v with
    | none => .error .attributeError
    | some str => do
      let rest ← hashChunks row fs
      .ok (str :: rest)

/-- The `try` body of `fingerprint`: hash the most recent transaction's
fields in header order and date-stamp it with that row's parsed date. -/
def fingerprintBody (h : List String → String) (s : PyFile) :
    Except PyErr (Option Fingerprint) := do
  let row? ← _find_most_recent_transaction s
  match row? with
  | none => .ok none
  | some row =>
    match dictFieldnames ',' (seekStart s).content with
    | none => .error .typeError
    | some fns => do
      let chunks ← hashChunks row fns
      let v ← rowGet row "Date"
      let d ← parse_date v
      .ok (some ⟨d, h chunks⟩)

/-- `fingerprint`: any exception from the body is converted to `None`. -/
def fingerprint (h : List String → String) (s : PyFile) : Option Fingerprint :=
  match fingerprintBody h s with
  | .ok r => r
  | .error _ => none

/-- `_create_balance_transaction`: build the synthetic balance record from
the most recent transaction row; its date is that row's date plus one day.
No `reversed_lineno` argument is passed, so the field keeps its default. -/
def _create_balance_transaction (balance_row : Row) (filename : Option String) :
    Except PyErr Transaction := do
  let v ← rowGet balance_row "Date"
  let transaction_date ← parse_date v
  let balance_date := nextDay transaction_date
  let b ← rowGet balance_row "Balance"
  let balance_amount ← pyDecimalOpt b
  let account_number ← rowGet balance_row "Account number"
  .ok { extractor := EXTRACTOR_NAME
        file := filename
        lineno := 0
        transaction_id := some ("BALANCE_" ++ fmtYMD transaction_date ++ "_" ++ optStr account_number)
        date := some balance_date
        post_date := some balance_date
        desc := "Balance as of " ++ fmtISO transaction_date
        amount := balance_amount
        currency := some "USD"
        type := some "BALANCE"
        source_account := account_number }

/-- The `try` body of one `__call__` loop iteration: parse one csv row into
a literal transaction (the source's field order preserved, so the first
failing field determines the raised error). -/
def rowTxn (filename : Option String) (row_count : Nat) (i : Nat) (row : Row) :
    Except PyErr (Option Transaction) := do
  let dv ← rowGet row "Date"
  let transaction_date ← parse_date dv
  let av ← rowGet row "Amount"
  let amount ← pyDecimalOpt av
  let descv ← rowGet row "Description"
  let description ← stripOpt descv
  let cv ← rowGet row "Category"
  let c ← stripOpt cv
  let category := if c ≠ "" then some c else none
  let nv ← rowGet row "Note"
  let n ← stripOpt nv
  let note := if n ≠ "" then some n else none
  let account_number ← rowGet row "Account number"
  let bv ← rowGet row "Balance"
  let balance ← stripOpt bv
  let extra : Option (List (String × Option String)) :=
    if balance ≠ "" then some [("balance", some balance)] else none
  .ok (some
    { extractor := EXTRACTOR_NAME
      file := filename
      lineno := i + 1
      reversed_lineno := some ((i : Int) - (row_count : Int))
      date := some transaction_date
      post_date := some transaction_date
      desc := description
      amount := amount
      currency := some "USD"
      category := category
      note := note
      source_account := account_number
      extra := extra })

/-- `__call__`: count the rows, yield the parseable ones with their
original positions (the per-row catch skips `ValueError`, `KeyError`,
`InvalidOperation`, `IndexError`), then append the balance record built
from the most recent transaction, if one exists. -/
def callBody (s : PyFile) : List Transaction × Option PyErr :=
  if s.binary then ([], some .typeError)
  else
    let filename := s.name
    let rows := dictRows ',' (seekStart s).content
    let row_count := rows.length
    let r := runLoop (rowTxn filename row_count) caughtLenient 0 rows
    match r.2 with
    | some e => (r.1, some e)
    | none =>
      match findMostRecentRows rows with
      | .error e => (r.1, some e)
      | .ok none => (r.1, none)
      | .ok (some row) =>
        match _create_balance_transaction row filename with
        | .error e => (r.1, some e)
        | .ok t => (r.1 ++ [t], none)

end WSECU

namespace BacSanJose

def EXTRACTOR_NAME : String := "bac_san_jose"

def DEFAULT_IMPORT_ID : String :=
  "bac_san_jose:\x7b\x7b source_account \x7d\x7d:\x7b\x7b reference \x7d\x7d"

/-- `parse_date`: DD/MM/YYYY. Python evaluates `int(parts[2])`,
`int(parts[1])`, `int(parts[0])` left to right, then validates the date. -/
def parse_date : Option String → Except PyErr Date
  | none => .error .attributeError
  | some s => do
    let parts := splitStr '/' s
    let p2 ← listIdx parts 2
    let y ← pyInt p2
    let p1 ← listIdx parts 1
    let m ← pyInt p1
    let p0 ← listIdx parts 0
    let d ← pyInt p0
    mkDate y m d

/-- The `try` body of `detect`: read everything, rewind, check the four
Spanish markers of the BAC San Jose bank export. -/
def detectBody (s : PyFile) : Except PyErr (Bool × PyFile) := do
  let s0 := seekStart s
  let (content, s1) ← readAllText s0
  let s2 := seekStart s1
  .ok (strHasSub content "Detalle de Estado Bancario" &&
       strHasSub content "Fecha de Transacción" &&
       strHasSub content "Referencia de Transacción" &&
       strHasSub content "Código de Transacción", s2)

/-- `detect`: any exception from the body is converted to `False`. -/
def detect (s : PyFile) : Bool × PyFile :=
  match detectBody s with
  | .ok r => r
  | .error _ => (false, seekStart s)

/-- The account-info section parsed from line 2 of the file. -/
structure AccountInfo where
  customer_number : String
  name : String
  account_number : String
  currency : String
deriving DecidableEq, Repr

/-- One parsed row of the transaction-details section, keyed as the source
dict is. -/
structure BacTxnRow where
  fecha : String
  referencia : String
  codigo : String
  descripcion : String
  debito : String
  credito : String
  balance : String
deriving DecidableEq, Repr

/-- The account-info part of `_parse_file_sections`: split line 2 on commas
and keep the first four stripped fields, `none` when the file is shorter
than two lines or the line has fewer than four fields. -/
def parseAccountInfo (lines : List String) : Option AccountInfo :=
  match lines.get? 1 with
  | none => none
  | some account_line =>
    let parts := (splitStr ',' (pyStrip account_line)).map pyStrip
    match parts.get? 0, parts.get? 1, parts.get? 2, parts.get? 3 with
    | some a, some b, some c, some d => some ⟨a, b, c, d⟩
    | _, _, _, _ => none

/-- Index one past the line containing the transaction header, if any. -/
def findFechaStart : List String → Option Nat
  | [] => none
  | l :: rest =>
    if strHasSub l "Fecha de Transacción" then some 1
    else (findFechaStart rest).map (· + 1)

/-- The transaction rows: stop at a blank line or the summary section, keep
every line splitting into at least seven stripped fields. -/
def parseTxnRows : List String → List BacTxnRow
  | [] => []
  | line :: rest =>
    let l := pyStrip line
    if l = "" ∨ strHasSub l "Resumen de Estado Bancario" then []
    else
      let parts := (splitStr ',' l).map pyStrip
      match parts.get? 0, parts.get? 1, parts.get? 2, parts.get? 3,
            parts.get? 4, parts.get? 5, parts.get? 6 with
      | some a, some b, some c, some d, some e, some f, some g =>
        ⟨a, b, c, d, e, f, g⟩ :: parseTxnRows rest
      | _, _, _, _, _, _, _ => parseTxnRows rest

/-- `_parse_file_sections`: rewind, read the lines, parse the account-info
line and the transaction-details section. -/
def _parse_file_sections (s : PyFile) : Except PyErr (Option AccountInfo × List BacTxnRow) :=
  if s.binary then .error .typeError
  else
    let lines := pyLines (seekStart s).content
    let txns := match findFechaStart lines with
      | none => []
      | some st => parseTxnRows (lines.drop st)
    .ok (parseAccountInfo lines, txns)

/-- `_find_last_transaction`: simply the last listed transaction — the BAC
export is ordered chronologically, so the last row is the most recent. -/
def _find_last_transaction (txns : List BacTxnRow) : Option BacTxnRow :=
  txns.getLast?

/-- The `try` body of `fingerprint`: hash the account number together with
the last transaction's balance, date and reference, and date-stamp the
fingerprint with that last transaction's date. -/
def fingerprintBody (h : List String → String) (s : PyFile) :
    Except PyErr (Option Fingerprint) := do
  let r ← _parse_file_sections s
  match r.1, _find_last_transaction r.2 with
  | some info, some last => do
    let d ← parse_date (some last.fecha)
    .ok (some ⟨d, h [info.account_number, last.balance, last.fecha, last.referencia]⟩)
  | _, _ => .ok none

/-- `fingerprint`: any exception from the body is converted to `None`. -/
def fingerprint (h : List String → String) (s : PyFile) : Option Fingerprint :=
  match fingerprintBody h s with
  | .ok r => r
  | .error _ => none

/-- `_create_balance_transaction`: the synthetic balance record carries the
last transaction's running balance, dated one day after that transaction. -/
def _create_balance_transaction (last : BacTxnRow) (info : AccountInfo)
    (filename : Option String) : Except PyErr Transaction := do
  let balance_amount ← pyDecimal last.balance
  let last_transaction_date ← parse_date (some last.fecha)
  let balance_date := nextDay last_transaction_date
  let account_number := info.account_number
  .ok { extractor := EXTRACTOR_NAME
        file := filename
        lineno := 0
        transaction_id := some ("BALANCE_" ++ fmtYMD last_transaction_date ++ "_" ++ account_number)
        date := some balance_date
        post_date := some balance_date
        desc := "Balance as of " ++ fmtISO last_transaction_date
        amount := balance_amount
        currency := some info.currency
        type := some "BALANCE"
        source_account := some account_number }

/-- The `try` body of one `__call__` loop iteration: debits become negative
amounts, credits positive; rows with neither are skipped (`continue`). -/
def rowTxn (filename : Option String) (info : AccountInfo) (n : Nat) (i : Nat)
    (row : BacTxnRow) : Except PyErr (Option Transaction) := do
  let transaction_date ← parse_date (some row.fecha)
  let description := pyStrip row.descripcion
  let debit_str := pyStrip row.debito
  let credit_str := pyStrip row.credito
  let amount? ←
    if debit_str ≠ "" ∧ debit_str ≠ "0.00" then (pyDecimal debit_str).map (some ∘ Dec.neg)
    else if credit_str ≠ "" ∧ credit_str ≠ "0.00" then (pyDecimal credit_str).map some
    else .ok none
  match amount? with
  | none => .ok none
  | some amount =>
    .ok (some
      { extractor := EXTRACTOR_NAME
        file := filename
        lineno := i + 1
        reversed_lineno := some ((i : Int) - (n : Int))
        date := some transaction_date
        post_date := some transaction_date
        desc := description
        amount := amount
        currency := some info.currency
        source_account := some info.account_number
        reference := some row.referencia
        category := some row.codigo
        extra := some [("running_balance", some row.balance)] })

/-- `__call__`: return nothing without account info; otherwise yield the
parseable rows (per-row lenient catch) and append the balance record built
from the chronologically last transaction. -/
def callBody (s : PyFile) : List Transaction × Option PyErr :=
  match _parse_file_sections s with
  | .error e => ([], some e)
  | .ok (none, _) => ([], none)
  | .ok (some info, txns) =>
    let r := runLoop (rowTxn s.name info txns.length) caughtLenient 0 txns
    match r.2 with
    | some e => (r.1, some e)
    | none =>
      match _find_last_transaction txns with
      | none => (r.1, none)
      | some last =>
        match _create_balance_transaction last info s.name with
        | .error e => (r.1, some e)
        | .ok t => (r.1 ++ [t], none)

end BacSanJose

namespace BacSanJoseCredit

def EXTRACTOR_NAME : String := "bac_san_jose_credit"

def DEFAULT_IMPORT_ID : String :=
  "bac_san_jose_credit:\x7b\x7b last_four_digits \x7d\x7d:\x7b\x7b transaction_id \x7d\x7d"

/-- `parse_date`: DD/MM/YYYY, as the bank extractor. -/
def parse_date : Option String → Except PyErr Date
  | none => .error .attributeError
  | some s => do
    let parts := splitStr '/' s
    let p2 ← listIdx parts 2
    let y ← pyInt p2
    let p1 ← listIdx parts 1
    let m ← pyInt p1
    let p0 ← listIdx parts 0
    let d ← pyInt p0
    mkDate y m d

/-- The `try` body of `detect`: read everything, rewind, check the four
markers of the BAC credit-card export. -/
def detectBody (s : PyFile) : Except PyErr (Bool × PyFile) := do
  let s0 := seekStart s
  let (content, s1) ← readAllText s0
  let s2 := seekStart s1
  .ok (strHasSub content "Pro000000000000duct" &&
       strHasSub content "Minimum payment/due date" &&
       strHasSub content "Cash payment/Due date" &&
       strHasSub content "Date, , Local, Dollars", s2)

/-- `detect`: any exception from the body is converted to `False`. -/
def detect (s : PyFile) : Bool × PyFile :=
  match detectBody s with
  | .ok r => r
  | .error _ => (false, seekStart s)

/-- The account information of CSV line 2. -/
structure CreditInfo where
  source_account : String
  statement_date : String
  cash_payment_local : String
  cash_payment_dollars : String
deriving DecidableEq, Repr

/-- `s.split('-')[-1]`. -/
def lastSplitDash (s : String) : String :=
  match (splitStr '-' s).getLast? with
  | some x => x
  | none => s

/-- `s[-4:]`. -/
def lastFourChars (s : String) : String :=
  String.mk (s.data.reverse.take 4).reverse

/-- `_parse_file_sections`: parse account info from line 2; every malformed
shape raises `ValueError` (the source's `IndexError`s are re-raised as
`ValueError` by its own handler). -/
def _parse_file_sections (s : PyFile) : Except PyErr CreditInfo :=
  if s.binary then .error .typeError
  else
    let lines := pyLines (seekStart s).content
    if lines.length < 2 then .error .valueError
    else
      match lines.get? 1 with
      | none => .error .valueError
      | some line1 =>
        let parts := (splitStr ',' (pyStrip line1)).map pyStrip
        if parts.length < 9 then .error .valueError
        else
          match parts.get? 0, parts.get? 2, parts.get? 7, parts.get? 8 with
          | some full_card_number, some statement_date, some loc, some dol =>
            if full_card_number = "" then .error .valueError
            else
              let source_account :=
                if strHasSub full_card_number "-" then lastSplitDash full_card_number
                else lastFourChars full_card_number
              if statement_date = "" then .error .valueError
              else .ok ⟨source_account, statement_date, loc, dol⟩
          | _, _, _, _ => .error .valueError

/-- The `try` body of `fingerprint`: hash the account info of line 2 and
date-stamp the fingerprint with the statement date. -/
def fingerprintBody (h : List String → String) (s : PyFile) :
    Except PyErr (Option Fingerprint) := do
  let info ← _parse_file_sections s
  let d ← parse_date (some info.statement_date)
  .ok (some ⟨d, h [info.source_account, info.statement_date,
                   info.cash_payment_local, info.cash_payment_dollars]⟩)

/-- `fingerprint`: `ValueError` and any other exception both yield `None`. -/
def fingerprint (h : List String → String) (s : PyFile) : Option Fingerprint :=
  match fingerprintBody h s with
  | .ok r => r
  | .error _ => none

/-- One parsed credit-card transaction. -/
structure CreditTxn where
  date : String
  description : String
  amount : Dec
  currency : String
  last_four_digits : String
  line_number : Nat
deriving DecidableEq, Repr

/-- Index one past the line containing the transaction-section header. -/
def findTxnStart : List String → Option Nat
  | [] => none
  | l :: rest =>
    if strHasSub l "Date, , Local, Dollars" then some 1
    else (findTxnStart rest).map (· + 1)

/-- `date_part.replace("/", "").isdigit()`. -/
def dateDigits (s : String) : Bool :=
  let l := s.data.filter (fun c => c ≠ '/')
  l ≠ [] ∧ allDigits l

/-- The transaction-scan loop of `_parse_transactions`: `i` is the 0-based
absolute line index, `cur` the last seen card-grouping suffix. Card
grouping lines update `cur`; dateless or zero-amount lines are skipped; a
transaction before any grouping line, an unparsable amount or date, or a
too-short line raises `ValueError` (the source re-raises every failure as
`ValueError`). -/
def parseTxnLoop : Nat → Option String → List String → Except PyErr (List CreditTxn)
  | _, _, [] => .ok []
  | i, cur, line :: rest =>
    let l := pyStrip line
    if l = "" ∨ strHasSub l "CURRENT Interest MONTH" then .ok []
    else
      let parts := (splitStr ',' l).map pyStrip
      if parts.length < 4 then .error .valueError
      else
        match parts.get? 0, parts.get? 1, parts.get? 2, parts.get? 3 with
        | some date_part, some desc_part, some local_amount, some dollar_amount =>
          if date_part = "" ∧ strHasSub desc_part "*" ∧ strHasSub desc_part "-" ∧
              local_amount = "0.00" ∧ dollar_amount = "0.00" then
            let nlf :=
              if strHasSub desc_part "-" then lastSplitDash desc_part
              else lastFourChars desc_part
            parseTxnLoop (i + 1) (some nlf) rest
          else if date_part = "" ∨ ¬ dateDigits date_part then
            parseTxnLoop (i + 1) cur rest
          else if (local_amount = "0.00" ∨ local_amount = "") ∧
                  (dollar_amount = "0.00" ∨ dollar_amount = "") then
            parseTxnLoop (i + 1) cur rest
          else
            match cur with
            | none => .error .valueError
            | some current_last_four =>
              let ac : Except PyErr (Option (Dec × String)) :=
                if local_amount ≠ "" ∧ local_amount ≠ "0.00" then
                  match pyDecimal local_amount with
                  | .ok q => .ok (some (q.neg, "CRC"))
                  | .error _ => .error .valueError
                else if dollar_amount ≠ "" ∧ dollar_amount ≠ "0.00" then
                  match pyDecimal dollar_amount with
                  | .ok q => .ok (some (q.neg, "USD"))
                  | .error _ => .error .valueError
                else .ok none
              match ac with
              | .error e => .error e
              | .ok none => parseTxnLoop (i + 1) cur rest
              | .ok (some (amount, currency)) =>
                match parse_date (some date_part) with
                | .error _ => .error .valueError
                | .ok _ =>
                  match parseTxnLoop (i + 1) cur rest with
                  | .error e => .error e
                  | .ok ts =>
                    .ok (⟨date_part, desc_part, amount, currency,
                          current_last_four, i + 1⟩ :: ts)
        | _, _, _, _ => .error .valueError

/-- `_parse_transactions`: locate the section header (raising `ValueError`
when absent) and scan the following lines. -/
def _parse_transactions (s : PyFile) : Except PyErr (List CreditTxn) :=
  if s.binary then .error .typeError
  else
    let lines := pyLines (seekStart s).content
    match findTxnStart lines with
    | none => .error .valueError
    | some st => parseTxnLoop st none (lines.drop st)

/-- `_create_balance_transactions`: one balance record per currency whose
cash-payment amount is non-zero, dated the statement date, with the amount
negated for the Beancount liability convention. -/
def _create_balance_transactions (info : CreditInfo) (filename : Option String) :
    Except PyErr (List Transaction) :=
  if info.statement_date = "" ∨ info.source_account = "" then .error .valueError
  else
    match parse_date (some info.statement_date) with
    | .error _ => .error .valueError
    | .ok statement_date =>
      let source_account := info.source_account
      let last_four_digits := source_account
      let crcRes : Except PyErr (List Transaction) :=
        if info.cash_payment_local ≠ "" ∧ info.cash_payment_local ≠ "0.00" then
          match pyDecimal info.cash_payment_local with
          | .error e => .error e
          | .ok q =>
            .ok [{ extractor := EXTRACTOR_NAME
                   file := filename
                   lineno := 0
                   transaction_id := some ("BALANCE_" ++ fmtYMD statement_date ++ "_" ++
                                           last_four_digits ++ "_CRC")
                   date := some statement_date
                   post_date := some statement_date
                   desc := "Balance as of " ++ fmtISO statement_date ++ " (CRC)"
                   amount := q.neg
                   currency := some "CRC"
                   type := some "BALANCE"
                   source_account := some source_account
                   last_four_digits := some last_four_digits }]
        else .ok []
      match crcRes with
      | .error e => .error e
      | .ok crc =>
        if info.cash_payment_dollars ≠ "" ∧ info.cash_payment_dollars ≠ "0.00" then
          match pyDecimal info.cash_payment_dollars with
          | .error e => .error e
          | .ok q =>
            .ok (crc ++
              [{ extractor := EXTRACTOR_NAME
                 file := filename
                 lineno := 0
                 transaction_id := some ("BALANCE_" ++ fmtYMD statement_date ++ "_" ++
                                         last_four_digits ++ "_USD")
                 date := some statement_date
                 post_date := some statement_date
                 desc := "Balance as of " ++ fmtISO statement_date ++ " (USD)"
                 amount := q.neg
                 currency := some "USD"
                 type := some "BALANCE"
                 source_account := some source_account
                 last_four_digits := some last_four_digits }])
        else .ok crc

/-- One `__call__` loop iteration: no catch — a failure aborts the
sequence. -/
def rowTxn (filename : Option String) (info : CreditInfo) (n : Nat) (i : Nat)
    (t : CreditTxn) : Except PyErr (Option Transaction) := do
  let transaction_date ← parse_date (some t.date)
  .ok (some
    { extractor := EXTRACTOR_NAME
      file := filename
      lineno := t.line_number
      reversed_lineno := some ((i : Int) - (n : Int))
      transaction_id := some (fmtYMD transaction_date ++ "_" ++ toString i)
      date := some transaction_date
      post_date := some transaction_date
      desc := pyStrip t.description
      amount := t.amount
      currency := some t.currency
      source_account := some info.source_account
      last_four_digits := some t.last_four_digits
      extra := some [] })

/-- `__call__`: parse account info and transactions (failures propagate),
yield every transaction, then append the balance records; a failure there
is re-raised as `ValueError`. -/
def callBody (s : PyFile) : List Transaction × Option PyErr :=
  match _parse_file_sections s with
  | .error e => ([], some e)
  | .ok info =>
    match _parse_transactions s with
    | .error e => ([], some e)
    | .ok txns =>
      let r := runLoop (rowTxn s.name info txns.length) (fun _ => false) 0 txns
      match r.2 with
      | some e => (r.1, some e)
      | none =>
        match _create_balance_transactions info s.name with
        | .error e =>
          (r.1, some (if e = .valueError ∨ e = .invalidOperation then .valueError else e))
        | .ok bs => (r.1 ++ bs, none)

end BacSanJoseCredit

namespace AllyBankOFX

def EXTRACTOR_NAME : String := "ally_bank_ofx"

def DEFAULT_IMPORT_ID : String :=
  "ally_bank:\x7b\x7b account_id \x7d\x7d:\x7b\x7b transaction_id \x7d\x7d"

/-- `parse_ofx_datetime`: the first eight characters as YYYYMMDD. The model
requires exactly eight digits (`strptime("%Y%m%d")` on the truncated
prefix); a `None` argument raises `TypeError` inside `strptime`. -/
def parse_ofx_datetime : Option String → Except PyErr Date
  | none => .error .typeError
  | some s =>
    let dp := s.data.take 8
    if dp.length = 8 ∧ allDigits dp then
      mkDate (digitsVal (dp.take 4) : Int) (digitsVal ((dp.drop 4).take 2) : Int)
        (digitsVal (dp.drop 6) : Int)
    else .error .valueError

/-- The `try` body of `detect`: read the first 1000 characters, rewind, and
check the OFX header and the Ally-specific markers. -/
def detectBody (s : PyFile) : Except PyErr (Bool × PyFile) := do
  let s0 := seekStart s
  let (content, s1) ← readNText 1000 s0
  let s2 := seekStart s1
  .ok (strHasSub content "OFXHEADER:" && strHasSub content "<OFX>" &&
       (strHasSub content "<ORG>Ally</ORG>" || strHasSub content "<FID>6157</FID>"), s2)

/-- `detect`: any exception from the body is converted to `False`. -/
def detect (s : PyFile) : Bool × PyFile :=
  match detectBody s with
  | .ok r => r
  | .error _ => (false, seekStart s)

/-- Modelled from the spec: the statement structure the external `ofxtools`
parse (with its raw `ElementTree` fallback) extracts from an OFX stream —
the `CURDEF` and `BANKACCTFROM/ACCTID` texts, the `LEDGERBAL`'s `BALAMT`
and `DTASOF` texts, and the `STMTTRN` elements as (tag, text) child lists
(`none` text for empty elements). The parse itself is an external library
and is abstracted as a function `PyFile → Option OfxStatement`, `none`
modelling the missing-section navigations that end the generator early. -/
structure OfxStatement where
  curdef : Option String
  acctid : Option String
  balamt : Option String
  dtasof : Option String
  txns : List (List (String × Option String))
deriving Repr

/-- The metadata tuple of `_extract_statement_metadata`. -/
structure OfxMeta where
  currency : Option String
  main_account : Option String
  ledger_balance : Option String
  ledger_date : Option String
  account_id : Option String
deriving Repr

/-- `_extract_statement_metadata`. -/
def extractMeta (st : OfxStatement) : OfxMeta :=
  ⟨st.curdef, st.acctid, st.balamt, st.dtasof, st.acctid⟩

/-- `_parse_transaction_from_element`: the children folded into a dict (a
repeated tag overwrites in place). -/
def buildTxnData (children : List (String × Option String)) : Row :=
  children.foldl (fun d p => odSet d p.1 p.2) []

/-- `_add_metadata_to_transaction`: each metadata key set only when its
value is truthy. -/
def addMeta (d : Row) (m : OfxMeta) : Row :=
  let d := if truthyO m.currency then odSet d "_CURRENCY" m.currency else d
  let d := if truthyO m.main_account then odSet d "_MAIN_ACCOUNT" m.main_account else d
  let d := if truthyO m.ledger_balance then odSet d "_LEDGER_BALANCE" m.ledger_balance else d
  let d := if truthyO m.ledger_date then odSet d "_LEDGER_DATE" m.ledger_date else d
  if truthyO m.account_id then odSet d "_ACCOUNT_ID" m.account_id else d

/-- `_create_balance_transaction`: the synthetic balance dict, dated at the
ledger `DTASOF` timestamp; building its `NAME` parses that timestamp and
can raise `ValueError`. -/
def _create_balance_transaction (ledger_balance ledger_date : String)
    (currency main_account account_id : Option String) : Except PyErr Row := do
  let d ← parse_ofx_datetime (some ledger_date)
  let base : Row :=
    [("TRNTYPE", some "BALANCE"), ("DTPOSTED", some ledger_date),
     ("TRNAMT", some ledger_balance), ("FITID", some ("BALANCE_" ++ ledger_date)),
     ("NAME", some ("Balance as of " ++ fmtISO d)),
     ("_CURRENCY", currency), ("_MAIN_ACCOUNT", main_account)]
  .ok (if account_id.isSome then base ++ [("_ACCOUNT_ID", account_id)] else base)

/-- `_parse_transactions` over the abstracted parse `P`: the statement's
transactions with the metadata attached, then the balance dict when both
ledger balance and ledger date are truthy. When building the balance dict
raises, the source's `except Exception` re-runs the `ElementTree` fallback
from the top, which yields the transactions a second time and fails at the
same balance construction, whose inner handler then returns — so the
consumer sees the transactions twice and no error. -/
def _parse_transactions (P : PyFile → Option OfxStatement) (s : PyFile) : List Row :=
  match P (seekStart s) with
  | none => []
  | some st =>
    let m := extractMeta st
    let base := st.txns.map (fun td => addMeta (buildTxnData td) m)
    match m.ledger_balance, m.ledger_date with
    | some bal, some d =>
      if bal ≠ "" ∧ d ≠ "" then
        match _create_balance_transaction bal d m.currency m.main_account m.account_id with
        | .ok b => base ++ [b]
        | .error _ => base ++ base
      else base
    | _, _ => base

/-- `str(txn.get(k, ''))`: a present `None` value prints as `"None"`. -/
def chunkOf (d : Row) (k : String) : String :=
  match odGet d k with
  | none => ""
  | some v => optStr v

/-- The `try` body of `fingerprint`: hash `FITID`, `TRNAMT` and `NAME` of
the first parsed transaction and date-stamp it with its `DTPOSTED`. -/
def fingerprintBody (h : List String → String) (P : PyFile → Option OfxStatement)
    (s : PyFile) : Except PyErr (Option Fingerprint) := do
  let transactions := _parse_transactions P s
  match transactions.head? with
  | none => .ok none
  | some first_txn => do
    let chunks := [chunkOf first_txn "FITID", chunkOf first_txn "TRNAMT",
                   chunkOf first_txn "NAME"]
    let v ← rowGet first_txn "DTPOSTED"
    let d ← parse_ofx_datetime v
    .ok (some ⟨d, h chunks⟩)

/-- `fingerprint`: any exception from the body is converted to `None`. -/
def fingerprint (h : List String → String) (P : PyFile → Option OfxStatement)
    (s : PyFile) : Option Fingerprint :=
  match fingerprintBody h P s with
  | .ok r => r
  | .error _ => none

/-- The keys excluded from a transaction's `extra` dict. -/
def extraExcluded : List String :=
  ["DTPOSTED", "TRNAMT", "NAME", "MEMO", "FITID", "TRNTYPE",
   "_CURRENCY", "_MAIN_ACCOUNT", "_LEDGER_BALANCE", "_LEDGER_DATE", "_ACCOUNT_ID"]

/-- The `try` body of one `__call__` loop iteration: both dates come from
`DTPOSTED`; the amount parses `TRNAMT` (default `'0'`); `NAME` is the
description and `MEMO` the note when distinct. -/
def rowTxn (filename : Option String) (i : Nat) (txn_data : Row) :
    Except PyErr (Option Transaction) := do
  let transaction_date ← parse_ofx_datetime (odGetD txn_data "DTPOSTED" "")
  let user_date := transaction_date
  let amount ← pyDecimalOpt (odGetD txn_data "TRNAMT" "0")
  let name ← stripOpt (odGetD txn_data "NAME" "")
  let memo ← stripOpt (odGetD txn_data "MEMO" "")
  let desc := name
  let note := if memo ≠ "" ∧ memo ≠ name then some memo else none
  let txn_type := odGetD txn_data "TRNTYPE" ""
  let source_account := odGetJ txn_data "_MAIN_ACCOUNT"
  let account_id := odGetJ txn_data "_ACCOUNT_ID"
  let currency := odGetD txn_data "_CURRENCY" "USD"
  .ok (some
    { extractor := EXTRACTOR_NAME
      file := filename
      lineno := i + 1
      transaction_id := odGetJ txn_data "FITID"
      date := some user_date
      post_date := some transaction_date
      desc := desc
      amount := amount
      type := txn_type
      note := note
      currency := currency
      source_account := source_account
      last_four_digits := account_id
      extra := some (txn_data.filter (fun p => ¬ extraExcluded.contains p.1)) })

/-- The exception classes of the loop's catch `except (ValueError, KeyError)`. -/
def caughtAlly : PyErr → Bool
  | .valueError | .keyError => true
  | _ => false

/-- `__call__`: materialize the parsed dicts, then yield one transaction
per dict, skipping those whose processing raises `ValueError`/`KeyError`. -/
def callBody (P : PyFile → Option OfxStatement) (s : PyFile) :
    List Transaction × Option PyErr :=
  let transactions := _parse_transactions P s
  runLoop (rowTxn s.name) caughtAlly 0 transactions

end AllyBankOFX

namespace BancoNacional

def EXTRACTOR_NAME : String := "banco_nacional"

def DEFAULT_IMPORT_ID : String := "banco_nacional:\x7b\x7b transaction_id \x7d\x7d"

/-- `parse_date`: strip, then DD/MM/YYYY. -/
def parse_date : Option String → Except PyErr Date
  | none => .error .attributeError
  | some s => do
    let parts := splitStr '/' (pyStrip s)
    let p2 ← listIdx parts 2
    let y ← pyInt p2
    let p1 ← listIdx parts 1
    let m ← pyInt p1
    let p0 ← listIdx parts 0
    let d ← pyInt p0
    mkDate y m d

/-- The `try` body of `detect`: the first line of the stripped content must
be semicolon-separated and carry the Spanish column names. -/
def detectBody (s : PyFile) : Except PyErr (Bool × PyFile) := do
  let s0 := seekStart s
  let (content, s1) ← readAllText s0
  let s2 := seekStart s1
  let lines := pyLines (pyStrip content)
  let ok := match lines.head? with
    | none => false
    | some header =>
      strHasSub header ";" &&
      strHasSub (pyLower header) "oficina" &&
      strHasSub header "fechaMovimiento" &&
      strHasSub header "numeroDocumento" &&
      strHasSub (pyLower header) "debito" &&
      strHasSub (pyLower header) "credito" &&
      strHasSub (pyLower header) "descripcion"
  .ok (ok, s2)

/-- `detect`: any exception from the body is converted to `False`. -/
def detect (s : PyFile) : Bool × PyFile :=
  match detectBody s with
  | .ok r => r
  | .error _ => (false, seekStart s)

/-- Strip a row's keys and values, dropping empty keys and `None` values
(the dict comprehension of `_parse_transactions`). -/
def cleanRow (row : Row) : SDict :=
  row.foldl (fun d p =>
    match p.2 with
    | some v => if p.1 ≠ "" then dsetD d (pyStrip p.1) (pyStrip v) else d
    | none => d) []

/-- The row filter of `_parse_transactions`: skip rows with a missing,
`None` or blank `fechaMovimiento` and the `TOTAL` summary rows; a `None`
`numeroDocumento` value raises `AttributeError` at `.upper()`. -/
def parseRowsLoop : List Row → Except PyErr (List SDict)
  | [] => .ok []
  | row :: rest =>
    match odGetJ row "fechaMovimiento" with
    | none => parseRowsLoop rest
    | some f =>
      if pyStrip f = "" then parseRowsLoop rest
      else
        let ndRes : Except PyErr String :=
          match odGet row "numeroDocumento" with
          | none => .ok ""
          | some none => .error .attributeError
          | some (some v) => .ok v
        match ndRes with
        | .error e => .error e
        | .ok nd =>
          if strHasSub (pyUpper nd) "TOTAL" then parseRowsLoop rest
          else
            let cleaned := cleanRow row
            match parseRowsLoop rest with
            | .error e => .error e
            | .ok ts => .ok (if cleaned ≠ [] then cleaned :: ts else ts)

/-- `_parse_transactions`: rewind and filter the semicolon-csv rows. -/
def _parse_transactions (s : PyFile) : Except PyErr (List SDict) :=
  if s.binary then .error .typeError
  else parseRowsLoop (dictRows ';' (seekStart s).content)

/-- The `try` body of `fingerprint`: hash `oficina`, `fechaMovimiento`,
`numeroDocumento` and `descripcion` of the first transaction and date-stamp
it with that transaction's date. -/
def fingerprintBody (h : List String → String) (s : PyFile) :
    Except PyErr (Option Fingerprint) := do
  let transactions ← _parse_transactions s
  match transactions.head? with
  | none => .ok none
  | some first => do
    let o ← match dget first "oficina" with
      | some v => Except.ok v
      | none => Except.error PyErr.keyError
    let f ← match dget first "fechaMovimiento" with
      | some v => Except.ok v
      | none => Except.error PyErr.keyError
    let n ← match dget first "numeroDocumento" with
      | some v => Except.ok v
      | none => Except.error PyErr.keyError
    let dsc ← match dget first "descripcion" with
      | some v => Except.ok v
      | none => Except.error PyErr.keyError
    let d ← parse_date (some f)
    .ok (some ⟨d, h [o, f, n, dsc]⟩)

/-- `fingerprint`: any exception from the body is converted to `None`. -/
def fingerprint (h : List String → String) (s : PyFile) : Option Fingerprint :=
  match fingerprintBody h s with
  | .ok r => r
  | .error _ => none

/-- The `try` body of one `__call__` loop iteration: debits negative,
credits positive, neither skips the row; `lineno` counts from 2 past the
header and `reversed_lineno` counts down from the transaction count. -/
def rowTxn (filename : Option String) (n : Nat) (i : Nat) (txn_row : SDict) :
    Except PyErr (Option Transaction) := do
  let fv ← match dget txn_row "fechaMovimiento" with
    | some v => Except.ok v
    | none => Except.error PyErr.keyError
  let transaction_date ← parse_date (some fv)
  let oficina ← match dget txn_row "oficina" with
    | some v => Except.ok v
    | none => Except.error PyErr.keyError
  let numero_documento ← match dget txn_row "numeroDocumento" with
    | some v => Except.ok v
    | none => Except.error PyErr.keyError
  let descripcion ← match dget txn_row "descripcion" with
    | some v => Except.ok v
    | none => Except.error PyErr.keyError
  let debito_str := pyStrip (dgetD txn_row "debito" "")
  let credito_str := pyStrip (dgetD txn_row "credito" "")
  let amount? ←
    if debito_str ≠ "" ∧ debito_str ≠ "0.00" then (pyDecimal debito_str).map (some ∘ Dec.neg)
    else if credito_str ≠ "" ∧ credito_str ≠ "0.00" then (pyDecimal credito_str).map some
    else .ok none
  match amount? with
  | none => .ok none
  | some amount =>
    .ok (some
      { extractor := EXTRACTOR_NAME
        file := filename
        lineno := i + 2
        reversed_lineno := some ((n : Int) - (i : Int))
        transaction_id := some numero_documento
        date := some transaction_date
        post_date := some transaction_date
        desc := descripcion
        amount := amount
        currency := none
        source_account := none
        reference := some numero_documento
        extra := some [("oficina", some oficina)] })

/-- `__call__`: parse the rows (failures propagate), then yield the
parseable ones under the lenient per-row catch. -/
def callBody (s : PyFile) : List Transaction × Option PyErr :=
  match _parse_transactions s with
  | .error e => ([], some e)
  | .ok transactions =>
    runLoop (rowTxn s.name transactions.length) caughtLenient 0 transactions

end BancoNacional

namespace SynchronyPdf

def EXTRACTOR_NAME : String := "synchrony_pdf"

def DEFAULT_IMPORT_ID : String :=
  "\x7b\x7b extractor \x7d\x7d:\x7b\x7b source_account \x7d\x7d:\x7b\x7b reversed_lineno \x7d\x7d"

/-- The `fingerprint` of `synchrony_pdf.py`, translated from the source
with the external pypdf text extraction and the regex transaction scan
abstracted as inputs — `text` is what `_extract_pdf_text()` returned (the
empty string on any extraction failure, per its catch-all handler) and
`txns` the list `_extract_transactions()` produced from that same text. An
empty (falsy) text yields `None`; otherwise the whole text is hashed, the
hex digest truncated to its first 16 characters, and the starting date is
`min(dates)` over the transactions' non-null dates — or the placeholder
`datetime.date(1970, 1, 1)` when no transaction (or no dated transaction)
was found. -/
def fingerprint (h : List String → String) (text : String) (txns : List Transaction) :
    Option Fingerprint :=
  if text = "" then none
  else
    let dates := txns.filterMap (fun t => t.date)
    let starting_date :=
      match minDate dates with
      | some d => d
      | none => ⟨1970, 1, 1⟩
    some ⟨starting_date, String.mk ((h [text]).data.take 16)⟩

end SynchronyPdf

/-- One registered plugin as the dispatcher sees it: its registry name and
its `detect` operation over the shared stream. -/
structure Plugin where
  name : String
  detect : PyFile → Bool × PyFile

/-- `detect_extractor`: walk the registry in its fixed iteration order; for
each candidate rewind the stream (`input_file.seek(os.SEEK_SET)`),
construct the plugin around it and call `detect()`; return the first
plugin accepting, or `None` (the implicit fall-through) when none does. -/
def detect_extractor : List Plugin → PyFile → Option Plugin × PyFile
  | [], s => (none, s)
  | p :: ps, s =>
    let s0 := seekStart s
    let r := p.detect s0
    if r.1 then (some p, r.2) else detect_extractor ps r.2

/-- The modelled subset of `ALL_EXTRACTORS`, in the source dict's iteration
order (insertion order, fixed across runs). -/
def modeledExtractors : List Plugin :=
  [⟨AllyBankOFX.EXTRACTOR_NAME, AllyBankOFX.detect⟩,
   ⟨BacSanJose.EXTRACTOR_NAME, BacSanJose.detect⟩,
   ⟨BacSanJoseCredit.EXTRACTOR_NAME, BacSanJoseCredit.detect⟩,
   ⟨BancoNacional.EXTRACTOR_NAME, BancoNacional.detect⟩,
   ⟨WSECU.EXTRACTOR_NAME, WSECU.detect⟩]

/-- `rows` with their 0-based indices, starting at `i`. -/
def enumFrom : Nat → List α → List (Nat × α)
  | _, [] => []
  | i, x :: xs => (i, x) :: enumFrom (i + 1) xs

/-- The yielded transaction of a loop step, `none` for a skip or an error. -/
def okJoin : Except PyErr (Option Transaction) → Option Transaction
  | .ok v => v
  | .error _ => none

/-- A stand-in hex-digest function for evaluating the fingerprint models on
concrete inputs (the real SHA-256 stays abstract in every theorem). -/
def hashDemo : List String → String := fun _ => ""

/-- A WSECU csv with one data row, as the repository's own test data. -/
def wsecuFile : PyFile :=
  { content := "Account number,Date,Description,Category,Note,Amount,Balance\n1234567890-S01,08/15/2024,TEST TRANSACTION,,Test note,100.00,500.00" }

/-- A WSECU csv of three rows, newest first, whose middle row has a
non-numeric amount. -/
def wsecuSkipFile : PyFile :=
  { content := "Account number,Date,Description,Category,Note,Amount,Balance\nA-1,08/15/2024,VALID ONE,,,5.00,65.00\nA-1,08/14/2024,BROKEN,,,notanumber,60.00\nA-1,08/13/2024,VALID TWO,,,-40.00,60.00" }

/-- A WSECU-headed csv with no data rows. -/
def wsecuHeaderOnly : PyFile :=
  { content := "Account number,Date,Description,Category,Note,Amount,Balance" }

/-- A csv whose header lacks the `Date` column but which has a data row. -/
def noDateFile : PyFile := { content := "A,B\n1,2" }

/-- A binary-mode stream. -/
def binFile : PyFile := { content := "%PDF-1.4", binary := true }

/-- A stream matching no modeled plugin. -/
def garbageFile : PyFile := { content := "garbage", pos := 3 }

/-- A BAC San Jose bank export with two transactions in chronological
(oldest-first) order: 01/01/2024, then 02/01/2024. -/
def bacFile : PyFile :=
  { content := "Número de Clientes,Nombre,Producto,Moneda\n123,JOHN DOE,CR123,CRC\nDetalle de Estado Bancario\nFecha de Transacción,Referencia de Transacción,Código de Transacción,Descripción de Transacción,Débito de Transacción,Crédito de Transacción,Balance de Transacción\n01/01/2024,R1,C1,DEP,0.00,100.00,100.00\n02/01/2024,R2,C2,PAGO,40.00,0.00,60.00\n" }

/-- A BAC credit-card export whose line 2 reports statement date
15/08/2024 and cash payments 250.50 (local) and 10.00 (dollars). -/
def creditFile : PyFile :=
  { content := "Pro000000000000duct,x,Statement date,x,x,Minimum payment/due date,x,Cash payment/Due date local,dollars\n1234-5678-9012-3456,NAME,15/08/2024,x,x,100.00,x,250.50,10.00\nDate, , Local, Dollars\n,****-**-****-3456,0.00,0.00\n01/08/2024,STORE PURCHASE,5000.00,0.00\n02/08/2024,ONLINE USD,0.00,25.00\n" }

/-- The account info of `creditFile`, for applying theorems about the
balance synthesis directly. -/
def creditInfoDemo : BacSanJoseCredit.CreditInfo :=
  ⟨"3456", "15/08/2024", "250.50", "10.00"⟩

/-- An Ally OFX stream (the first kilobyte carries the markers). -/
def ofxFile : PyFile :=
  { content := "OFXHEADER:100\n<OFX><SIGNONMSGSRSV1><FI><ORG>Ally</ORG></FI></SIGNONMSGSRSV1></OFX>" }

/-- A parsed Ally statement: one posted transaction and a ledger balance of
1250.00 as of 20240815120000. -/
def ofxStmtDemo : AllyBankOFX.OfxStatement :=
  { curdef := some "USD", acctid := some "ACCT1", balamt := some "1250.00",
    dtasof := some "20240815120000",
    txns := [[("TRNTYPE", some "CREDIT"), ("DTPOSTED", some "20240813120000"),
              ("TRNAMT", some "100.00"), ("FITID", some "F1"),
              ("NAME", some "PAYROLL"), ("MEMO", some "DD")]] }

/-- A parse function returning `ofxStmtDemo` for every stream. -/
def ofxParseDemo : PyFile → Option AllyBankOFX.OfxStatement := fun _ => some ofxStmtDemo

/-- A Banco Nacional export with two movements and a trailing total row. -/
def bancoFile : PyFile :=
  { content := "oficina;fechaMovimiento;numeroDocumento;debito;credito;descripcion\n01;05/02/2024;DOC1;0.00;500.00;DEPOSITO\n01;06/02/2024;DOC2;200.00;0.00;PAGO\n;;TOTAL;;;\n" }

/-- A parse function whose statement has one transaction with an
unparsable `DTPOSTED` timestamp. -/
def ofxParseBadDate : PyFile → Option AllyBankOFX.OfxStatement :=
  fun _ => some { curdef := none, acctid := none, balamt := none, dtasof := none,
                  txns := [[("DTPOSTED", some "bad")]] }

/-- A BAC bank export with an account-info line but no transaction
section. -/
def bacNoTxnFile : PyFile := { content := "header\n123,JOHN DOE,CR123,CRC\n" }

/-- BAC credit account info reporting a 100.00 local cash payment and no
dollar cash payment. -/
def creditInfoLocal : BacSanJoseCredit.CreditInfo :=
  ⟨"3456", "15/08/2024", "100.00", "0.00"⟩

/-- The balance dict `_create_balance_transaction` builds for a 1250.00
ledger balance as of 20240815120000 on account ACCT1. -/
def allyBalanceDict : Row :=
  [("TRNTYPE", some "BALANCE"), ("DTPOSTED", some "20240815120000"),
   ("TRNAMT", some "1250.00"), ("FITID", some "BALANCE_20240815120000"),
   ("NAME", some "Balance as of 2024-08-15"), ("_CURRENCY", some "USD"),
   ("_MAIN_ACCOUNT", some "ACCT1"), ("_ACCOUNT_ID", some "ACCT1")]

/-- The transaction the Ally `__call__` loop yields for `allyBalanceDict`
at index 1. -/
def allyBalanceTxn : Transaction :=
  { extractor := "ally_bank_ofx", lineno := 2,
    transaction_id := some "BALANCE_20240815120000",
    date := some ⟨2024, 8, 15⟩, post_date := some ⟨2024, 8, 15⟩,
    desc := "Balance as of 2024-08-15", amount := ⟨125000, 2⟩,
    type := some "BALANCE", currency := some "USD",
    source_account := some "ACCT1", last_four_digits := some "ACCT1",
    extra := some [] }

/-- The CRC balance record synthesized from `creditInfoLocal`. -/
def creditCrcBalTxn : Transaction :=
  { extractor := "bac_san_jose_credit", lineno := 0,
    transaction_id := some "BALANCE_20240815_3456_CRC",
    date := some ⟨2024, 8, 15⟩, post_date := some ⟨2024, 8, 15⟩,
    desc := "Balance as of 2024-08-15 (CRC)", amount := ⟨-10000, 2⟩,
    type := some "BALANCE", currency := some "CRC",
    source_account := some "3456", last_four_digits := some "3456" }

/-- The most recent transaction row of `wsecuFile`. -/
def wsecuAnchorRow : Row :=
  [("Account number", some "1234567890-S01"), ("Date", some "08/15/2024"),
   ("Description", some "TEST TRANSACTION"), ("Category", some ""),
   ("Note", some "Test note"), ("Amount", some "100.00"), ("Balance", some "500.00")]

/-- The parsed transaction rows of `bacFile`. -/
def bacTxnRows : List BacSanJose.BacTxnRow :=
  [⟨"01/01/2024", "R1", "C1", "DEP", "0.00", "100.00", "100.00"⟩,
   ⟨"02/01/2024", "R2", "C2", "PAGO", "40.00", "0.00", "60.00"⟩]

/-- The balance record `wsecu` synthesizes from `wsecuAnchorRow`. -/
def wsecuBalanceTxn : Transaction :=
  { extractor := "wsecu", lineno := 0,
    transaction_id := some "BALANCE_20240815_1234567890-S01",
    date := some ⟨2024, 8, 16⟩, post_date := some ⟨2024, 8, 16⟩,
    desc := "Balance as of 2024-08-15", amount := ⟨50000, 2⟩,
    type := some "BALANCE", currency := some "USD",
    source_account := some "1234567890-S01" }

theorem seekStart_seekStart (s : PyFile) : seekStart (seekStart s) = seekStart s := rfl

theorem wsecu_detect_seekStart (t : PyFile) :
    seekStart ((WSECU.detect t).2) = seekStart t := by
  rcases t with ⟨c, p, n, b⟩
  cases b <;> rfl

theorem bac_detect_seekStart (t : PyFile) :
    seekStart ((BacSanJose.detect t).2) = seekStart t := by
  rcases t with ⟨c, p, n, b⟩
  cases b <;> rfl

theorem credit_detect_seekStart (t : PyFile) :
    seekStart ((BacSanJoseCredit.detect t).2) = seekStart t := by
  rcases t with ⟨c, p, n, b⟩
  cases b <;> rfl

theorem banco_detect_seekStart (t : PyFile) :
    seekStart ((BancoNacional.detect t).2) = seekStart t := by
  rcases t with ⟨c, p, n, b⟩
  cases b <;> rfl

theorem ally_detect_seekStart (t : PyFile) :
    seekStart ((AllyBankOFX.detect t).2) = seekStart t := by
  rcases t with ⟨c, p, n, b⟩
  cases b <;> rfl

theorem detect_extractor_find (ps : List Plugin) :
    ∀ s, (∀ p ∈ ps, ∀ t, seekStart ((p.detect t).2) = seekStart t) →
      (detect_extractor ps s).1 = ps.find? (fun p => (p.detect (seekStart s)).1) := by
  induction ps with
  | nil => intro s _; rfl
  | cons p ps ih =>
    intro s hps
    have hp := hps p (List.mem_cons_self _ _)
    have hrest : ∀ q ∈ ps, ∀ t, seekStart ((q.detect t).2) = seekStart t :=
      fun q hq => hps q (List.mem_cons_of_mem _ hq)
    show (detect_extractor (p :: ps) s).1 = _
    unfold detect_extractor
    rw [List.find?]
    cases hb : (p.detect (seekStart s)).1 with
    | true => simp [hb]
    | false =>
      simp only [hb, cond_false, if_false, Bool.false_eq_true]
      rw [ih _ hrest, hp (seekStart s), seekStart_seekStart]

theorem runLoop_ok_eq (step : Nat → α → Except PyErr (Option Transaction))
    (caught : PyErr → Bool) :
    ∀ i rows, (runLoop step caught i rows).2 = none →
      (runLoop step caught i rows).1 =
        (enumFrom i rows).filterMap (fun p => okJoin (step p.1 p.2)) := by
  intro i rows
  induction rows generalizing i with
  | nil => intro _; rfl
  | cons x rest ih =>
    intro hok
    unfold runLoop at hok ⊢
    rw [enumFrom, List.filterMap_cons]
    cases hs : step i x with
    | ok v =>
      cases v with
      | none => simpa [hs, okJoin] using ih (i + 1) (by simpa [hs] using hok)
      | some t => simpa [hs, okJoin] using ih (i + 1) (by simpa [hs] using hok)
    | error e =>
      cases hc : caught e with
      | true => simpa [hs, hc, okJoin] using ih (i + 1) (by simpa [hs, hc] using hok)
      | false => simp [hs, hc] at hok

theorem runLoop_mem (step : Nat → α → Except PyErr (Option Transaction))
    (caught : PyErr → Bool) :
    ∀ i rows u, u ∈ (runLoop step caught i rows).1 →
      ∃ j x, rows.get? j = some x ∧ step (i + j) x = .ok (some u) := by
  intro i rows
  induction rows generalizing i with
  | nil => intro u hu; simp [runLoop] at hu
  | cons x rest ih =>
    intro u hu
    unfold runLoop at hu
    cases hs : step i x with
    | ok v =>
      cases v with
      | none =>
        rw [hs] at hu
        obtain ⟨j, y, hy, hstep⟩ := ih (i + 1) u hu
        exact ⟨j + 1, y, by simpa using hy, by simpa [Nat.add_assoc, Nat.add_comm 1 j] using hstep⟩
      | some t =>
        rw [hs] at hu
        rcases List.mem_cons.mp hu with rfl | hu2
        · exact ⟨0, x, rfl, by simpa using hs⟩
        · obtain ⟨j, y, hy, hstep⟩ := ih (i + 1) u hu2
          exact ⟨j + 1, y, by simpa using hy, by simpa [Nat.add_assoc, Nat.add_comm 1 j] using hstep⟩
    | error e =>
      simp only [hs] at hu
      cases hc : caught e with
      | true =>
        simp only [hc, if_true] at hu
        obtain ⟨j, y, hy, hstep⟩ := ih (i + 1) u hu
        exact ⟨j + 1, y, by simpa using hy, by simpa [Nat.add_assoc, Nat.add_comm 1 j] using hstep⟩
      | false => simp [hc] at hu

theorem wsecu_rowTxn_inv (fname : Option String) (n i : Nat) (row : Row) (t : Transaction)
    (hr : WSECU.rowTxn fname n i row = .ok (some t)) :
    t.reversed_lineno = some ((i : Int) - (n : Int)) ∧ t.type = none ∧ t.lineno = i + 1 ∧
    (∃ v d, rowGet row "Date" = .ok v ∧ WSECU.parse_date v = .ok d ∧
      t.date = some d ∧ t.post_date = some d) ∧
    (∃ a, rowGet row "Account number" = .ok a ∧ t.source_account = a) := by
  simp only [WSECU.rowTxn, bind, Except.bind] at hr
  repeat' split at hr
  all_goals first
    | exact Except.noConfusion hr
    | (injection hr with h1; exact Option.noConfusion h1)
    | (injection hr with h1; injection h1 with h2; subst h2;
       exact ⟨rfl, rfl, rfl, ⟨_, _, by assumption, by assumption, rfl, rfl⟩,
         ⟨_, by assumption, rfl⟩⟩)

theorem bac_rowTxn_inv (fname : Option String) (info : BacSanJose.AccountInfo)
    (n i : Nat) (row : BacSanJose.BacTxnRow) (t : Transaction)
    (hr : BacSanJose.rowTxn fname info n i row = .ok (some t)) :
    t.type = none ∧ t.lineno = i + 1 ∧
    ∃ d, BacSanJose.parse_date (some row.fecha) = .ok d ∧
      t.date = some d ∧ t.post_date = some d := by
  simp only [BacSanJose.rowTxn, bind, Except.bind] at hr
  repeat' split at hr
  all_goals first
    | exact Except.noConfusion hr
    | (injection hr with h1; exact Option.noConfusion h1)
    | (injection hr with h1; injection h1 with h2; subst h2;
       exact ⟨rfl, rfl, _, by assumption, rfl, rfl⟩)

theorem wsecu_create_balance_inv (row : Row) (fname : Option String) (t : Transaction)
    (hr : WSECU._create_balance_transaction row fname = .ok t) :
    t.type = some "BALANCE" ∧ t.reversed_lineno = none ∧ t.lineno = 0 ∧
    (∃ v d, rowGet row "Date" = .ok v ∧ WSECU.parse_date v = .ok d ∧
      t.date = some (nextDay d) ∧ t.post_date = some (nextDay d)) ∧
    (∃ b q, rowGet row "Balance" = .ok b ∧ pyDecimalOpt b = .ok q ∧ t.amount = q) := by
  simp only [WSECU._create_balance_transaction, bind, Except.bind] at hr
  repeat' split at hr
  all_goals first
    | exact Except.noConfusion hr
    | (injection hr with h1; subst h1;
       exact ⟨rfl, rfl, rfl, ⟨_, _, by assumption, by assumption, rfl, rfl⟩,
         ⟨_, _, by assumption, by assumption, rfl⟩⟩)

theorem bac_create_balance_inv (last : BacSanJose.BacTxnRow) (info : BacSanJose.AccountInfo)
    (fname : Option String) (t : Transaction)
    (hr : BacSanJose._create_balance_transaction last info fname = .ok t) :
    t.type = some "BALANCE" ∧ t.lineno = 0 ∧
    (∃ d, BacSanJose.parse_date (some last.fecha) = .ok d ∧
      t.date = some (nextDay d) ∧ t.post_date = some (nextDay d)) ∧
    (∃ q, pyDecimal last.balance = .ok q ∧ t.amount = q) := by
  simp only [BacSanJose._create_balance_transaction, bind, Except.bind] at hr
  repeat' split at hr
  all_goals first
    | exact Except.noConfusion hr
    | (injection hr with h1; subst h1;
       exact ⟨rfl, rfl, ⟨_, by assumption, rfl, rfl⟩, ⟨_, by assumption, rfl⟩⟩)

/-- C1: the auto-detector iterates the registered plugin collection in one
fixed order, rewinds the stream to its start before constructing each
candidate and calling its `detect()`, returns the first plugin whose
`detect()` returns true, and returns `None` — not an error and not a
default plugin — when every registered plugin's `detect()` returns false.
The hypothesis states the frame property the modeled detectors enjoy: a
`detect` call moves only the read position of the shared stream. -/
theorem detect_extractor_dispatch (ps : List Plugin) (s : PyFile)
    (hps : ∀ p ∈ ps, ∀ t, seekStart ((p.detect t).2) = seekStart t) :
    (detect_extractor ps s).1 = ps.find? (fun p => (p.detect (seekStart s)).1) ∧
    ((∀ p ∈ ps, (p.detect (seekStart s)).1 = false) → (detect_extractor ps s).1 = none) := by
  refine ⟨detect_extractor_find ps s hps, fun hall => ?_⟩
  rw [detect_extractor_find ps s hps, List.find?_eq_none]
  intro p hp
  simp [hall p hp]

/-- C1 witness: on a stream matching no modeled plugin, the dispatcher
returns the first-match fold and, every detect being false, `None`. -/
theorem detect_extractor_dispatch_witness :
    (detect_extractor modeledExtractors garbageFile).1 =
      modeledExtractors.find? (fun p => (p.detect (seekStart garbageFile)).1) ∧
    (detect_extractor modeledExtractors garbageFile).1 = none := by
  have hps : ∀ p ∈ modeledExtractors, ∀ t, seekStart ((p.detect t).2) = seekStart t := by
    intro p hp t
    simp only [modeledExtractors, List.mem_cons, List.not_mem_nil, or_false] at hp
    rcases hp with rfl | rfl | rfl | rfl | rfl
    · exact ally_detect_seekStart t
    · exact bac_detect_seekStart t
    · exact credit_detect_seekStart t
    · exact banco_detect_seekStart t
    · exact wsecu_detect_seekStart t
  have h := detect_extractor_dispatch modeledExtractors garbageFile hps
  exact ⟨h.1, h.2 (by decide)⟩

/-- C3: `detect()` and `fingerprint()` never raise — each is a total
function whose body's exceptions are caught by its handler: whenever the
`try` body of a modeled `fingerprint` evaluates to a raised error, the
operation returns `None`, and whenever the `try` body of a modeled
`detect` evaluates to a raised error, the operation returns `False`. -/
theorem detect_fingerprint_never_raise :
    (∀ h s e, WSECU.fingerprintBody h s = .error e → WSECU.fingerprint h s = none) ∧
    (∀ h s e, BacSanJose.fingerprintBody h s = .error e → BacSanJose.fingerprint h s = none) ∧
    (∀ h s e, BacSanJoseCredit.fingerprintBody h s = .error e →
      BacSanJoseCredit.fingerprint h s = none) ∧
    (∀ h P s e, AllyBankOFX.fingerprintBody h P s = .error e →
      AllyBankOFX.fingerprint h P s = none) ∧
    (∀ h s e, BancoNacional.fingerprintBody h s = .error e →
      BancoNacional.fingerprint h s = none) ∧
    (∀ s e, WSECU.detectBody s = .error e → (WSECU.detect s).1 = false) ∧
    (∀ s e, BacSanJose.detectBody s = .error e → (BacSanJose.detect s).1 = false) ∧
    (∀ s e, BacSanJoseCredit.detectBody s = .error e → (BacSanJoseCredit.detect s).1 = false) ∧
    (∀ s e, AllyBankOFX.detectBody s = .error e → (AllyBankOFX.detect s).1 = false) ∧
    (∀ s e, BancoNacional.detectBody s = .error e → (BancoNacional.detect s).1 = false) := by
  refine ⟨fun h s e he => ?_, fun h s e he => ?_, fun h s e he => ?_,
          fun h P s e he => ?_, fun h s e he => ?_, fun s e he => ?_, fun s e he => ?_,
          fun s e he => ?_, fun s e he => ?_, fun s e he => ?_⟩ <;>
    simp [WSECU.fingerprint, BacSanJose.fingerprint, BacSanJoseCredit.fingerprint,
          AllyBankOFX.fingerprint, BancoNacional.fingerprint, WSECU.detect,
          BacSanJose.detect, BacSanJoseCredit.detect, AllyBankOFX.detect,
          BancoNacional.detect, he]

/-- C3 witness: concrete erroring bodies — a csv without a `Date` column
(`KeyError`), binary-mode streams (`TypeError`), a two-line garbage file
(`ValueError`), an OFX transaction with an unparsable timestamp
(`ValueError`) — all converted to `None`/`False`. -/
theorem detect_fingerprint_never_raise_witness :
    WSECU.fingerprint hashDemo noDateFile = none ∧
    BacSanJose.fingerprint hashDemo binFile = none ∧
    BacSanJoseCredit.fingerprint hashDemo garbageFile = none ∧
    AllyBankOFX.fingerprint hashDemo ofxParseBadDate ofxFile = none ∧
    BancoNacional.fingerprint hashDemo binFile = none ∧
    (WSECU.detect binFile).1 = false ∧
    (BacSanJose.detect binFile).1 = false ∧
    (BacSanJoseCredit.detect binFile).1 = false ∧
    (AllyBankOFX.detect binFile).1 = false ∧
    (BancoNacional.detect binFile).1 = false := by
  have h := detect_fingerprint_never_raise
  exact ⟨h.1 hashDemo noDateFile .keyError (by decide),
         h.2.1 hashDemo binFile .typeError (by decide),
         h.2.2.1 hashDemo garbageFile .valueError (by decide),
         h.2.2.2.1 hashDemo ofxParseBadDate ofxFile .valueError (by decide),
         h.2.2.2.2.1 hashDemo binFile .typeError (by decide),
         h.2.2.2.2.2.1 binFile .typeError (by decide),
         h.2.2.2.2.2.2.1 binFile .typeError (by decide),
         h.2.2.2.2.2.2.2.1 binFile .typeError (by decide),
         h.2.2.2.2.2.2.2.2.1 binFile .typeError (by decide),
         h.2.2.2.2.2.2.2.2.2 binFile .typeError (by decide)⟩

/-- C4 counterexample: on a BAC San Jose export in its native oldest-first
order, the fingerprint anchor is not the first row. `bacFile` lists
01/01/2024 before 02/01/2024, yet the fingerprint's `starting_date` is
2024-01-02 — the date of the last row, not of the first row 2024-01-01. -/
theorem fingerprint_anchor_first_row_cex :
    (BacSanJose.fingerprint hashDemo bacFile).map (fun fp => fp.starting_date) =
      some ⟨2024, 1, 2⟩ ∧
    (BacSanJose._parse_file_sections bacFile).map
      (fun r => r.2.head?.map (fun row => row.fecha)) = .ok (some "01/01/2024") ∧
    BacSanJose.parse_date (some "01/01/2024") = .ok ⟨2024, 1, 1⟩ ∧
    (⟨2024, 1, 2⟩ : Date) ≠ ⟨2024, 1, 1⟩ := by
  refine ⟨by decide, by decide, by decide, by decide⟩

/-- C4 amended: the fingerprint anchor is the plugin's designated
most-recent transaction, and `starting_date` equals that anchor row's
date: for the newest-first WSECU export the anchor is the first row whose
date parses (`_find_most_recent_transaction`); for the oldest-first BAC
export the anchor is the last listed transaction (`_find_last_transaction`). -/
theorem fingerprint_anchor_amended :
    (∀ h s fp, WSECU.fingerprint h s = some fp →
      ∃ row v, WSECU._find_most_recent_transaction s = .ok (some row) ∧
        rowGet row "Date" = .ok v ∧ WSECU.parse_date v = .ok fp.starting_date) ∧
    (∀ h s fp, BacSanJose.fingerprint h s = some fp →
      ∃ info txns last, BacSanJose._parse_file_sections s = .ok (some info, txns) ∧
        txns.getLast? = some last ∧
        BacSanJose.parse_date (some last.fecha) = .ok fp.starting_date) := by
  constructor
  · intro h s fp hfp
    unfold WSECU.fingerprint at hfp
    cases hb : WSECU.fingerprintBody h s with
    | error e => rw [hb] at hfp; cases hfp
    | ok v =>
      rw [hb] at hfp
      subst hfp
      simp only [WSECU.fingerprintBody, bind, Except.bind] at hb
      repeat' split at hb
      all_goals first
        | exact Except.noConfusion hb
        | (injection hb with h1; exact Option.noConfusion h1)
        | (injection hb with h1; injection h1 with h2;
           exact ⟨_, _, by assumption, by assumption, by rw [← h2]; assumption⟩)
  · intro h s fp hfp
    unfold BacSanJose.fingerprint at hfp
    cases hb : BacSanJose.fingerprintBody h s with
    | error e => rw [hb] at hfp; cases hfp
    | ok v =>
      rw [hb] at hfp
      subst hfp
      cases hsec : BacSanJose._parse_file_sections s with
      | error e =>
        simp only [BacSanJose.fingerprintBody, hsec, bind, Except.bind] at hb
        exact Except.noConfusion hb
      | ok r =>
        obtain ⟨info?, txns⟩ := r
        simp only [BacSanJose.fingerprintBody, hsec, bind, Except.bind,
          BacSanJose._find_last_transaction] at hb
        repeat' split at hb
        all_goals first
          | exact Except.noConfusion hb
          | (injection hb with h1; exact Option.noConfusion h1)
          | (injection hb with h1; injection h1 with h2;
             exact ⟨_, txns, _, rfl, by assumption, by rw [← h2]; assumption⟩)

/-- C4 witness: the WSECU file anchors its first (most recent) row dated
2024-08-15; the BAC file anchors its last row dated 2024-01-02. -/
theorem fingerprint_anchor_amended_witness :
    (∃ row v, WSECU._find_most_recent_transaction wsecuFile = .ok (some row) ∧
      rowGet row "Date" = .ok v ∧ WSECU.parse_date v = .ok ⟨2024, 8, 15⟩) ∧
    (∃ info txns last, BacSanJose._parse_file_sections bacFile = .ok (some info, txns) ∧
      txns.getLast? = some last ∧
      BacSanJose.parse_date (some last.fecha) = .ok ⟨2024, 1, 2⟩) :=
  ⟨fingerprint_anchor_amended.1 hashDemo wsecuFile ⟨⟨2024, 8, 15⟩, ""⟩ (by decide),
   fingerprint_anchor_amended.2 hashDemo bacFile ⟨⟨2024, 1, 2⟩, ""⟩ (by decide)⟩

/-- C5 counterexample: when the PDF text extracts but no transaction row is
found, `synchrony_pdf.fingerprint` does not return `None` — it returns a
`Fingerprint` carrying the placeholder date 1970-01-01 and a truncated
16-character hash prefix. -/
theorem fingerprint_failure_null_cex :
    SynchronyPdf.fingerprint hashDemo "SYNCHRONY BANK statement" [] =
      some ⟨⟨1970, 1, 1⟩, ""⟩ ∧
    some (⟨⟨1970, 1, 1⟩, ""⟩ : Fingerprint) ≠ none := by
  refine ⟨by decide, by decide⟩

/-- C5 amended: a failing fingerprint yields `None` for the row-anchored
csv plugins (no valid anchor row, missing account info, no transactions),
and `synchrony_pdf` yields `None` when text extraction produces nothing;
but when its text extracts and no dated transaction is found it instead
returns a placeholder `Fingerprint` dated 1970-01-01 whose hash is the
16-character prefix of the whole-text digest. -/
theorem fingerprint_failure_null_amended :
    (∀ h txns, SynchronyPdf.fingerprint h "" txns = none) ∧
    (∀ h text txns, text ≠ "" → txns.filterMap (fun t => t.date) = [] →
      SynchronyPdf.fingerprint h text txns =
        some ⟨⟨1970, 1, 1⟩, String.mk ((h [text]).data.take 16)⟩) ∧
    (∀ h s, WSECU._find_most_recent_transaction s = .ok none →
      WSECU.fingerprint h s = none) ∧
    (∀ h s txns, BacSanJose._parse_file_sections s = .ok (none, txns) →
      BacSanJose.fingerprint h s = none) ∧
    (∀ h s info, BacSanJose._parse_file_sections s = .ok (some info, []) →
      BacSanJose.fingerprint h s = none) := by
  refine ⟨fun h txns => ?_, fun h text txns htext hdates => ?_,
          fun h s hfind => ?_, fun h s txns hsec => ?_, fun h s info hsec => ?_⟩
  · simp [SynchronyPdf.fingerprint]
  · simp [SynchronyPdf.fingerprint, htext, hdates, minDate]
  · simp [WSECU.fingerprint, WSECU.fingerprintBody, hfind, bind, Except.bind]
  · simp [BacSanJose.fingerprint, BacSanJose.fingerprintBody, hsec,
      BacSanJose._find_last_transaction, bind, Except.bind]
  · simp [BacSanJose.fingerprint, BacSanJose.fingerprintBody, hsec,
      BacSanJose._find_last_transaction, bind, Except.bind]

/-- C5 witness: the null results on concrete inputs — an empty extraction,
a header-only WSECU csv, a garbage file without account info, a BAC file
without a transaction section — and the placeholder result on a nonempty
Synchrony text with no transactions. -/
theorem fingerprint_failure_null_amended_witness :
    SynchronyPdf.fingerprint hashDemo "" [] = none ∧
    SynchronyPdf.fingerprint hashDemo "SYNCHRONY BANK" [] =
      some ⟨⟨1970, 1, 1⟩, String.mk ((hashDemo ["SYNCHRONY BANK"]).data.take 16)⟩ ∧
    WSECU.fingerprint hashDemo wsecuHeaderOnly = none ∧
    BacSanJose.fingerprint hashDemo garbageFile = none ∧
    BacSanJose.fingerprint hashDemo bacNoTxnFile = none := by
  have h := fingerprint_failure_null_amended
  exact ⟨h.1 hashDemo [],
         h.2.1 hashDemo "SYNCHRONY BANK" [] (by decide) (by decide),
         h.2.2.1 hashDemo wsecuHeaderOnly (by decide),
         h.2.2.2.1 hashDemo garbageFile [] (by decide),
         h.2.2.2.2 hashDemo bacNoTxnFile ⟨"123", "JOHN DOE", "CR123", "CRC"⟩ (by decide)⟩

theorem ally_rowTxn_inv (fname : Option String) (i : Nat) (td : Row) (t : Transaction)
    (hr : AllyBankOFX.rowTxn fname i td = .ok (some t)) :
    t.lineno = i + 1 ∧ t.type = odGetD td "TRNTYPE" "" ∧
    (∃ dt, AllyBankOFX.parse_ofx_datetime (odGetD td "DTPOSTED" "") = .ok dt ∧
      t.date = some dt ∧ t.post_date = some dt) ∧
    (∃ q, pyDecimalOpt (odGetD td "TRNAMT" "0") = .ok q ∧ t.amount = q) := by
  simp only [AllyBankOFX.rowTxn, bind, Except.bind] at hr
  repeat' split at hr
  all_goals first
    | exact Except.noConfusion hr
    | (injection hr with h1; exact Option.noConfusion h1)
    | (injection hr with h1; injection h1 with h2; subst h2;
       exact ⟨rfl, rfl, ⟨_, by assumption, rfl, rfl⟩, ⟨_, by assumption, rfl⟩⟩)

/-- C6: a synthesized balance record's `date` and `post_date` equal the
source's explicitly stated as-of date when the source states one — the OFX
ledger `DTASOF` timestamp for `ally_bank_ofx`, the statement date of line 2
for `bac_san_jose_credit` — and otherwise equal the date of the
chronologically last real transaction plus one day: the anchor row's date
for the newest-first `wsecu` export and the last listed row's date for the
oldest-first `bac_san_jose` export, each assumed to bound every parsed row
date (the boundedness hypotheses state this). -/
theorem balance_record_dating :
    (∀ bal d cur acct aid dict fname i t dt,
      AllyBankOFX._create_balance_transaction bal d cur acct aid = .ok dict →
      AllyBankOFX.rowTxn fname i dict = .ok (some t) →
      AllyBankOFX.parse_ofx_datetime (some d) = .ok dt →
      t.date = some dt ∧ t.post_date = some dt ∧ t.type = some "BALANCE") ∧
    (∀ s rows row v d,
      s.binary = false → rows = dictRows ',' (seekStart s).content →
      WSECU.findMostRecentRows rows = .ok (some row) →
      rowGet row "Date" = .ok v → WSECU.parse_date v = .ok d →
      (rows.all (fun r =>
        match rowGet r "Date" with
        | .error _ => true
        | .ok v' =>
          match WSECU.parse_date v' with
          | .error _ => true
          | .ok d' => dateLe d' d) = true) →
      (WSECU.callBody s).2 = none →
      ∃ t, (WSECU.callBody s).1.getLast? = some t ∧ t.type = some "BALANCE" ∧
        t.date = some (nextDay d) ∧ t.post_date = some (nextDay d)) ∧
    (∀ s info txns last d,
      BacSanJose._parse_file_sections s = .ok (some info, txns) →
      txns.getLast? = some last →
      BacSanJose.parse_date (some last.fecha) = .ok d →
      (txns.all (fun r =>
        match BacSanJose.parse_date (some r.fecha) with
        | .error _ => true
        | .ok d' => dateLe d' d) = true) →
      (BacSanJose.callBody s).2 = none →
      ∃ t, (BacSanJose.callBody s).1.getLast? = some t ∧ t.type = some "BALANCE" ∧
        t.date = some (nextDay d) ∧ t.post_date = some (nextDay d)) ∧
    (∀ info fname bs d,
      BacSanJoseCredit.parse_date (some info.statement_date) = .ok d →
      BacSanJoseCredit._create_balance_transactions info fname = .ok bs →
      ∀ t ∈ bs, t.date = some d ∧ t.post_date = some d ∧ t.type = some "BALANCE") := by
  refine ⟨?_, ?_, ?_, ?_⟩
  · intro bal d cur acct aid dict fname i t dt hcreate hrow hdt
    obtain ⟨-, htype, ⟨dt', hdt', hdate, hpost⟩, -⟩ := ally_rowTxn_inv fname i dict t hrow
    simp only [AllyBankOFX._create_balance_transaction, bind, Except.bind] at hcreate
    split at hcreate
    case h_1 => exact Except.noConfusion hcreate
    case h_2 =>
      rcases aid with _ | a <;>
      · injection hcreate with h1
        subst h1
        have h3 := hdt'.symm.trans hdt
        injection h3 with h4
        subst h4
        exact ⟨hdate, hpost, htype⟩
  · intro s rows row v d hbin hrows hfind hv hd hmax hnone
    subst hrows
    unfold WSECU.callBody at hnone ⊢
    rw [hbin] at hnone ⊢
    simp only [Bool.false_eq_true, if_false] at hnone ⊢
    cases hr2 : (runLoop (WSECU.rowTxn s.name
        (dictRows ',' (seekStart s).content).length) caughtLenient 0
        (dictRows ',' (seekStart s).content)).2 with
    | some e =>
      rw [hr2] at hnone
      dsimp only at hnone
      exact Option.noConfusion hnone
    | none =>
      rw [hr2] at hnone
      dsimp only at hnone ⊢
      rw [hfind] at hnone ⊢
      dsimp only at hnone ⊢
      cases hcb : WSECU._create_balance_transaction row s.name with
      | error e =>
        rw [hcb] at hnone
        dsimp only at hnone
        exact Option.noConfusion hnone
      | ok t =>
        dsimp only
        obtain ⟨htype, -, -, ⟨v', d', hv', hd', hdate, hpost⟩, -⟩ :=
          wsecu_create_balance_inv row s.name t hcb
        have hvv : v' = v := by
          have h3 := hv'.symm.trans hv
          injection h3
        subst hvv
        have hdd : d' = d := by
          have h3 := hd'.symm.trans hd
          injection h3
        subst hdd
        exact ⟨t, by rw [List.getLast?_concat], htype, hdate, hpost⟩
  · intro s info txns last d hsec hlast hd hmax hnone
    unfold BacSanJose.callBody at hnone ⊢
    rw [hsec] at hnone ⊢
    dsimp only at hnone ⊢
    cases hr2 : (runLoop (BacSanJose.rowTxn s.name info txns.length) caughtLenient 0 txns).2 with
    | some e =>
      rw [hr2] at hnone
      dsimp only at hnone
      exact Option.noConfusion hnone
    | none =>
      rw [hr2] at hnone
      dsimp only at hnone ⊢
      unfold BacSanJose._find_last_transaction at hnone ⊢
      rw [hlast] at hnone ⊢
      dsimp only at hnone ⊢
      cases hcb : BacSanJose._create_balance_transaction last info s.name with
      | error e =>
        rw [hcb] at hnone
        dsimp only at hnone
        exact Option.noConfusion hnone
      | ok t =>
        dsimp only
        obtain ⟨htype, -, ⟨d', hd', hdate, hpost⟩, -⟩ :=
          bac_create_balance_inv last info s.name t hcb
        have hdd : d' = d := by
          have h3 := hd'.symm.trans hd
          injection h3
        subst hdd
        exact ⟨t, by rw [List.getLast?_concat], htype, hdate, hpost⟩
  · intro info fname bs d hd hcreate t ht
    unfold BacSanJoseCredit._create_balance_transactions at hcreate
    split at hcreate
    · exact Except.noConfusion hcreate
    split at hcreate
    · exact Except.noConfusion hcreate
    rename_i d0 heq0
    have hdd : d0 = d := by
      have h3 := heq0.symm.trans hd
      injection h3
    subst hdd
    split at hcreate
    case isTrue =>
      split at hcreate
      · dsimp only at hcreate
        exact Except.noConfusion hcreate
      · dsimp only at hcreate
        split at hcreate
        case isTrue =>
          split at hcreate
          · exact Except.noConfusion hcreate
          · injection hcreate with h2
            subst h2
            simp only [List.mem_append, List.mem_cons, List.not_mem_nil, or_false] at ht
            rcases ht with rfl | rfl
            · exact ⟨rfl, rfl, rfl⟩
            · exact ⟨rfl, rfl, rfl⟩
        case isFalse =>
          injection hcreate with h2
          subst h2
          simp only [List.mem_cons, List.not_mem_nil, or_false] at ht
          rcases ht with rfl
          exact ⟨rfl, rfl, rfl⟩
    case isFalse =>
      dsimp only at hcreate
      split at hcreate
      case isTrue =>
        split at hcreate
        · exact Except.noConfusion hcreate
        · injection hcreate with h2
          subst h2
          simp only [List.nil_append, List.mem_cons, List.not_mem_nil, or_false] at ht
          rcases ht with rfl
          exact ⟨rfl, rfl, rfl⟩
      case isFalse =>
        injection hcreate with h2
        subst h2
        exact absurd ht (List.not_mem_nil t)

/-- C6 witness: the Ally balance record is dated at the ledger as-of date
2024-08-15; the WSECU and BAC balance records are dated one day after
their last transactions (2024-08-16 and 2024-01-03); the BAC credit CRC
balance record is dated at the statement date 2024-08-15. -/
theorem balance_record_dating_witness :
    (allyBalanceTxn.date = some ⟨2024, 8, 15⟩ ∧ allyBalanceTxn.post_date = some ⟨2024, 8, 15⟩ ∧
      allyBalanceTxn.type = some "BALANCE") ∧
    (∃ t, (WSECU.callBody wsecuFile).1.getLast? = some t ∧ t.type = some "BALANCE" ∧
      t.date = some (nextDay ⟨2024, 8, 15⟩) ∧ t.post_date = some (nextDay ⟨2024, 8, 15⟩)) ∧
    (∃ t, (BacSanJose.callBody bacFile).1.getLast? = some t ∧ t.type = some "BALANCE" ∧
      t.date = some (nextDay ⟨2024, 1, 2⟩) ∧ t.post_date = some (nextDay ⟨2024, 1, 2⟩)) ∧
    (creditCrcBalTxn.date = some ⟨2024, 8, 15⟩ ∧ creditCrcBalTxn.post_date = some ⟨2024, 8, 15⟩ ∧
      creditCrcBalTxn.type = some "BALANCE") := by
  have h := balance_record_dating
  exact ⟨h.1 "1250.00" "20240815120000" (some "USD") (some "ACCT1") (some "ACCT1")
      allyBalanceDict none 1 allyBalanceTxn ⟨2024, 8, 15⟩ (by decide) (by decide) (by decide),
    h.2.1 wsecuFile (dictRows ',' (seekStart wsecuFile).content) wsecuAnchorRow
      (some "08/15/2024") ⟨2024, 8, 15⟩ (by decide) rfl (by decide) (by decide) (by decide)
      (by decide) (by decide),
    h.2.2.1 bacFile ⟨"123", "JOHN DOE", "CR123", "CRC"⟩ bacTxnRows
      ⟨"02/01/2024", "R2", "C2", "PAGO", "40.00", "0.00", "60.00"⟩ ⟨2024, 1, 2⟩
      (by decide) (by decide) (by decide) (by decide) (by decide),
    h.2.2.2 creditInfoLocal none [creditCrcBalTxn] ⟨2024, 8, 15⟩ (by decide) (by decide)
      creditCrcBalTxn (by decide)⟩

/-- C7 counterexample: the BAC credit balance record's amount is not equal
to the source-reported ending balance — it is its negation. With a reported
cash payment of 100.00, the synthesized record carries amount -100.00,
which is not numerically equal to Decimal("100.00"). -/
theorem balance_amount_equality_cex :
    (BacSanJoseCredit._create_balance_transactions creditInfoLocal none).map
      (fun l => l.map (fun t => t.amount)) = .ok [⟨-10000, 2⟩] ∧
    creditInfoLocal.cash_payment_local = "100.00" ∧
    pyDecimal "100.00" = .ok ⟨10000, 2⟩ ∧
    Dec.nEq ⟨-10000, 2⟩ ⟨10000, 2⟩ = false := by
  refine ⟨by decide, by decide, by decide, by decide⟩

/-- C7 amended: `extract()` emits at most one `type="BALANCE"` record per
distinct (account, currency) pair — `bac_san_jose_credit` emits one per
currency with a non-zero cash payment, all on the same account, with
pairwise distinct currencies — and each record's amount equals the
source-reported ending balance up to the plugin's sign convention: exactly
the reported value for `wsecu`, the negated reported value for
`bac_san_jose_credit` (Beancount liability convention). -/
theorem balance_per_currency_amended :
    (∀ info fname bs, BacSanJoseCredit._create_balance_transactions info fname = .ok bs →
      (bs.map (fun t => t.currency)).Nodup ∧
      ∀ t ∈ bs, t.type = some "BALANCE" ∧ t.source_account = some info.source_account ∧
        (t.currency = some "CRC" →
          ∃ q, pyDecimal info.cash_payment_local = .ok q ∧ t.amount = q.neg) ∧
        (t.currency = some "USD" →
          ∃ q, pyDecimal info.cash_payment_dollars = .ok q ∧ t.amount = q.neg)) ∧
    (∀ row fname t, WSECU._create_balance_transaction row fname = .ok t →
      ∃ v q, rowGet row "Balance" = .ok v ∧ pyDecimalOpt v = .ok q ∧ t.amount = q) ∧
    (∀ s, ((WSECU.callBody s).1.filter (fun t => t.type == some "BALANCE")).length ≤ 1) := by
  refine ⟨?_, ?_, ?_⟩
  · intro info fname bs hcreate
    unfold BacSanJoseCredit._create_balance_transactions at hcreate
    split at hcreate
    · exact Except.noConfusion hcreate
    split at hcreate
    · exact Except.noConfusion hcreate
    split at hcreate
    case isTrue =>
      split at hcreate
      · dsimp only at hcreate
        exact Except.noConfusion hcreate
      · dsimp only at hcreate
        split at hcreate
        case isTrue =>
          split at hcreate
          · exact Except.noConfusion hcreate
          · injection hcreate with h2
            subst h2
            refine ⟨by simp, ?_⟩
            intro t ht
            simp only [List.mem_append, List.mem_cons, List.not_mem_nil, or_false] at ht
            rcases ht with rfl | rfl
            · exact ⟨rfl, rfl, fun _ => ⟨_, by assumption, rfl⟩, fun hc => by simp at hc⟩
            · exact ⟨rfl, rfl, fun hc => by simp at hc, fun _ => ⟨_, by assumption, rfl⟩⟩
        case isFalse =>
          injection hcreate with h2
          subst h2
          refine ⟨by simp, ?_⟩
          intro t ht
          simp only [List.mem_cons, List.not_mem_nil, or_false] at ht
          rcases ht with rfl
          exact ⟨rfl, rfl, fun _ => ⟨_, by assumption, rfl⟩, fun hc => by simp at hc⟩
    case isFalse =>
      dsimp only at hcreate
      split at hcreate
      case isTrue =>
        split at hcreate
        · exact Except.noConfusion hcreate
        · injection hcreate with h2
          subst h2
          refine ⟨by simp, ?_⟩
          intro t ht
          simp only [List.nil_append, List.mem_cons, List.not_mem_nil, or_false] at ht
          rcases ht with rfl
          exact ⟨rfl, rfl, fun hc => by simp at hc, fun _ => ⟨_, by assumption, rfl⟩⟩
      case isFalse =>
        injection hcreate with h2
        subst h2
        exact ⟨by simp, fun t ht => absurd ht (List.not_mem_nil t)⟩
  · intro row fname t hcreate
    obtain ⟨-, -, -, -, ⟨v, q, hv, hq, hamt⟩⟩ := wsecu_create_balance_inv row fname t hcreate
    exact ⟨v, q, hv, hq, hamt⟩
  · intro s
    unfold WSECU.callBody
    cases hb : s.binary with
    | true => simp
    | false =>
      simp only [Bool.false_eq_true, if_false]
      have hfilter : List.filter (fun t => t.type == some "BALANCE")
          (runLoop (WSECU.rowTxn s.name (dictRows ',' (seekStart s).content).length)
            caughtLenient 0 (dictRows ',' (seekStart s).content)).1 = [] := by
        rw [List.filter_eq_nil_iff]
        intro u hu
        obtain ⟨j, x, hx, hstep⟩ := runLoop_mem _ _ 0 _ u hu
        obtain ⟨-, htype, -⟩ := wsecu_rowTxn_inv _ _ _ _ _ hstep
        simp [htype]
      cases h2 : (runLoop (WSECU.rowTxn s.name (dictRows ',' (seekStart s).content).length)
          caughtLenient 0 (dictRows ',' (seekStart s).content)).2 with
      | some e =>
        dsimp only
        simp [hfilter]
      | none =>
        dsimp only
        cases hf : WSECU.findMostRecentRows (dictRows ',' (seekStart s).content) with
        | error e => dsimp only; simp [hfilter]
        | ok o =>
          cases o with
          | none => dsimp only; simp [hfilter]
          | some row =>
            dsimp only
            cases hc : WSECU._create_balance_transaction row s.name with
            | error e => dsimp only; simp [hfilter]
            | ok t =>
              dsimp only
              simp only [List.filter_append, hfilter, List.nil_append]
              cases hty : (t.type == some "BALANCE") <;>
                simp [List.filter, hty]

/-- C7 witness: `creditInfoLocal` yields exactly one balance record, for
CRC, with amount the negation of Decimal("100.00"); the WSECU balance
record's amount equals Decimal("500.00") exactly; the WSECU extract emits
one balance record at most. -/
theorem balance_per_currency_amended_witness :
    ([creditCrcBalTxn].map (fun t => t.currency)).Nodup ∧
    (creditCrcBalTxn.type = some "BALANCE" ∧
      creditCrcBalTxn.source_account = some creditInfoLocal.source_account ∧
      (creditCrcBalTxn.currency = some "CRC" →
        ∃ q, pyDecimal creditInfoLocal.cash_payment_local = .ok q ∧
          creditCrcBalTxn.amount = q.neg) ∧
      (creditCrcBalTxn.currency = some "USD" →
        ∃ q, pyDecimal creditInfoLocal.cash_payment_dollars = .ok q ∧
          creditCrcBalTxn.amount = q.neg)) ∧
    (∃ v q, rowGet wsecuAnchorRow "Balance" = .ok v ∧ pyDecimalOpt v = .ok q ∧
      wsecuBalanceTxn.amount = q) ∧
    ((WSECU.callBody wsecuFile).1.filter (fun t => t.type == some "BALANCE")).length ≤ 1 := by
  have h := balance_per_currency_amended
  have h1 := h.1 creditInfoLocal none [creditCrcBalTxn] (by decide)
  exact ⟨h1.1, h1.2 creditCrcBalTxn (by decide),
    h.2.1 wsecuAnchorRow none wsecuBalanceTxn (by decide), h.2.2 wsecuFile⟩

theorem banco_rowTxn_inv (fname : Option String) (n i : Nat) (row : SDict) (t : Transaction)
    (hr : BancoNacional.rowTxn fname n i row = .ok (some t)) :
    t.lineno = i + 2 ∧ t.reversed_lineno = some ((n : Int) - (i : Int)) ∧ t.type = none := by
  simp only [BancoNacional.rowTxn, bind, Except.bind] at hr
  repeat' split at hr
  all_goals first
    | exact Except.noConfusion hr
    | (injection hr with h1; exact Option.noConfusion h1)
    | (injection hr with h1; injection h1 with h2; subst h2; exact ⟨rfl, rfl, rfl⟩)

theorem splitChar_ne_nil (c : Char) (l : List Char) : splitChar c l ≠ [] := by
  cases l with
  | nil => simp [splitChar]
  | cons x xs =>
    unfold splitChar
    cases splitChar c xs with
    | nil => simp
    | cons r rs =>
      by_cases hx : x = c <;> simp [hx]

theorem dictRows_first_field (content : String) (x : Row) (j : Nat)
    (hfield : dictFieldnames ',' content = some WSECU.ALL_FIELDS)
    (hx : (dictRows ',' content).get? j = some x) :
    ∃ w, rowGet x "Account number" = .ok (some w) := by
  unfold dictFieldnames at hfield
  unfold dictRows at hx
  cases hl : pyLines content with
  | nil => rw [hl] at hx; cases hx
  | cons header rest =>
    rw [hl] at hfield hx
    simp only [List.head?_cons, Option.map_some'] at hfield
    injection hfield with hfield
    have hmem := List.get?_mem hx
    obtain ⟨l, hlmem, hleq⟩ := List.mem_map.mp hmem
    cases hsp : splitStr ',' l with
    | nil =>
      have hnil : splitChar ',' l.data = [] := by
        have h := hsp
        unfold splitStr at h
        exact List.map_eq_nil_iff.mp h
      exact absurd hnil (splitChar_ne_nil ',' l.data)
    | cons v vs =>
      rw [hfield, hsp] at hleq
      subst hleq
      exact ⟨v, rfl⟩

/-- C8: the lenient per-row loops of `wsecu` and `banco_nacional` skip
exactly the failing rows and yield every parseable row at its original
position: when no uncaught error occurs, the yields equal the filter-map of
the indexed rows through the row step, and each yielded row keeps the
`lineno` of its source index (`index + 1` for `wsecu`, `index + 2` for the
header-offset `banco_nacional`); `wsecu`'s `extract()` is those yields
followed by at most a synthesized balance record. -/
theorem lenient_skip_keeps_lineno :
    (∀ fname n i rows, (runLoop (WSECU.rowTxn fname n) caughtLenient i rows).2 = none →
      (runLoop (WSECU.rowTxn fname n) caughtLenient i rows).1 =
        (enumFrom i rows).filterMap (fun r => okJoin (WSECU.rowTxn fname n r.1 r.2))) ∧
    (∀ fname n i row t, WSECU.rowTxn fname n i row = .ok (some t) → t.lineno = i + 1) ∧
    (∀ s, s.binary = false → (WSECU.callBody s).2 = none →
      ∃ tail, (WSECU.callBody s).1 =
        ((enumFrom 0 (dictRows ',' (seekStart s).content)).filterMap
          (fun r => okJoin (WSECU.rowTxn s.name
            (dictRows ',' (seekStart s).content).length r.1 r.2))) ++ tail ∧
        (tail = [] ∨ ∃ t, tail = [t] ∧ t.type = some "BALANCE")) ∧
    (∀ fname n i rows, (runLoop (BancoNacional.rowTxn fname n) caughtLenient i rows).2 = none →
      (runLoop (BancoNacional.rowTxn fname n) caughtLenient i rows).1 =
        (enumFrom i rows).filterMap (fun r => okJoin (BancoNacional.rowTxn fname n r.1 r.2))) ∧
    (∀ fname n i row t, BancoNacional.rowTxn fname n i row = .ok (some t) → t.lineno = i + 2) := by
  refine ⟨?_, ?_, ?_, ?_, ?_⟩
  · intro fname n i rows hok
    exact runLoop_ok_eq (WSECU.rowTxn fname n) caughtLenient i rows hok
  · intro fname n i row t hr
    exact (wsecu_rowTxn_inv fname n i row t hr).2.2.1
  · intro s hbin hnone
    unfold WSECU.callBody at hnone ⊢
    rw [hbin] at hnone ⊢
    simp only [Bool.false_eq_true, if_false] at hnone ⊢
    cases h2 : (runLoop (WSECU.rowTxn s.name (dictRows ',' (seekStart s).content).length)
        caughtLenient 0 (dictRows ',' (seekStart s).content)).2 with
    | some e =>
      rw [h2] at hnone
      dsimp only at hnone
      exact Option.noConfusion hnone
    | none =>
      rw [h2] at hnone
      dsimp only at hnone ⊢
      have hmain := runLoop_ok_eq (WSECU.rowTxn s.name
        (dictRows ',' (seekStart s).content).length) caughtLenient 0
        (dictRows ',' (seekStart s).content) h2
      cases hf : WSECU.findMostRecentRows (dictRows ',' (seekStart s).content) with
      | error e =>
        rw [hf] at hnone
        dsimp only at hnone
        exact Option.noConfusion hnone
      | ok o =>
        rw [hf] at hnone
        cases o with
        | none =>
          dsimp only
          exact ⟨[], by rw [hmain, List.append_nil], Or.inl rfl⟩
        | some row =>
          dsimp only at hnone ⊢
          cases hc : WSECU._create_balance_transaction row s.name with
          | error e =>
            rw [hc] at hnone
            dsimp only at hnone
            exact Option.noConfusion hnone
          | ok t =>
            dsimp only
            obtain ⟨htype, -⟩ := wsecu_create_balance_inv row s.name t hc
            exact ⟨[t], by rw [hmain], Or.inr ⟨t, rfl, htype⟩⟩
  · intro fname n i rows hok
    exact runLoop_ok_eq (BancoNacional.rowTxn fname n) caughtLenient i rows hok
  · intro fname n i row t hr
    exact (banco_rowTxn_inv fname n i row t hr).1

/-- C8 witness: on the three-row WSECU csv whose middle row has amount
`notanumber`, the loop yields exactly the filter-map of the indexed rows,
the yields keep linenos 1 and 3, and `extract()` is those two rows plus the
balance record. -/
theorem lenient_skip_keeps_lineno_witness :
    ((runLoop (WSECU.rowTxn wsecuSkipFile.name
        (dictRows ',' (seekStart wsecuSkipFile).content).length) caughtLenient 0
        (dictRows ',' (seekStart wsecuSkipFile).content)).1 =
      (enumFrom 0 (dictRows ',' (seekStart wsecuSkipFile).content)).filterMap
        (fun r => okJoin (WSECU.rowTxn wsecuSkipFile.name
          (dictRows ',' (seekStart wsecuSkipFile).content).length r.1 r.2))) ∧
    (∃ tail, (WSECU.callBody wsecuSkipFile).1 =
      ((enumFrom 0 (dictRows ',' (seekStart wsecuSkipFile).content)).filterMap
        (fun r => okJoin (WSECU.rowTxn wsecuSkipFile.name
          (dictRows ',' (seekStart wsecuSkipFile).content).length r.1 r.2))) ++ tail ∧
      (tail = [] ∨ ∃ t, tail = [t] ∧ t.type = some "BALANCE")) ∧
    (WSECU.callBody wsecuSkipFile).1.map (fun t => t.lineno) = [1, 3, 0] := by
  have h := lenient_skip_keeps_lineno
  exact ⟨h.1 wsecuSkipFile.name (dictRows ',' (seekStart wsecuSkipFile).content).length 0
      (dictRows ',' (seekStart wsecuSkipFile).content) (by decide),
    h.2.2.1 wsecuSkipFile (by decide) (by decide), by decide⟩

/-- C9 counterexample: WSECU's default import-id template references
`reversed_lineno`, yet the synthesized balance record its `extract()`
emits leaves `reversed_lineno` null. -/
theorem import_id_fields_cex :
    "reversed_lineno" ∈ templateFields WSECU.DEFAULT_IMPORT_ID ∧
    (WSECU.callBody wsecuFile).1.getLast? = some wsecuBalanceTxn ∧
    wsecuBalanceTxn.type = some "BALANCE" ∧
    wsecuBalanceTxn.reversed_lineno = none := by
  refine ⟨by decide, by decide, by decide, by decide⟩

/-- C9 amended: on a well-formed WSECU export (header equal to
`ALL_FIELDS`) every ordinary extracted row populates the two fields its
default template references, `source_account` and `reversed_lineno`; the
synthesized balance record populates `source_account` but leaves
`reversed_lineno` — referenced by that template — null. -/
theorem import_id_fields_amended :
    templateFields WSECU.DEFAULT_IMPORT_ID = ["source_account", "reversed_lineno"] ∧
    (∀ s, s.binary = false →
      dictFieldnames ',' (seekStart s).content = some WSECU.ALL_FIELDS →
      ∀ u ∈ (WSECU.callBody s).1, u.type = none →
        u.source_account ≠ none ∧ u.reversed_lineno ≠ none) ∧
    (∀ row fname t, WSECU._create_balance_transaction row fname = .ok t →
      t.type = some "BALANCE" ∧ t.reversed_lineno = none) := by
  refine ⟨by decide, ?_, ?_⟩
  · intro s hbin hfield u hu hutype
    have hmem : u ∈ (runLoop (WSECU.rowTxn s.name
        (dictRows ',' (seekStart s).content).length) caughtLenient 0
        (dictRows ',' (seekStart s).content)).1 := by
      unfold WSECU.callBody at hu
      rw [hbin] at hu
      simp only [Bool.false_eq_true, if_false] at hu
      cases h2 : (runLoop (WSECU.rowTxn s.name (dictRows ',' (seekStart s).content).length)
          caughtLenient 0 (dictRows ',' (seekStart s).content)).2 with
      | some e => rw [h2] at hu; exact hu
      | none =>
        rw [h2] at hu
        dsimp only at hu
        cases hf : WSECU.findMostRecentRows (dictRows ',' (seekStart s).content) with
        | error e => rw [hf] at hu; exact hu
        | ok o =>
          rw [hf] at hu
          cases o with
          | none => exact hu
          | some row =>
            dsimp only at hu
            cases hc : WSECU._create_balance_transaction row s.name with
            | error e => rw [hc] at hu; exact hu
            | ok t =>
              rw [hc] at hu
              dsimp only at hu
              rcases List.mem_append.mp hu with hu1 | hu1
              · exact hu1
              · obtain ⟨htype, -⟩ := wsecu_create_balance_inv row s.name t hc
                rcases List.mem_cons.mp hu1 with rfl | hu2
                · rw [htype] at hutype; cases hutype
                · exact absurd hu2 (List.not_mem_nil u)
    obtain ⟨j, x, hx, hstep⟩ := runLoop_mem _ _ 0 _ u hmem
    obtain ⟨hrev, -, -, -, ⟨a, ha, hsa⟩⟩ :=
      wsecu_rowTxn_inv s.name (dictRows ',' (seekStart s).content).length (0 + j) x u hstep
    obtain ⟨w, hw⟩ := dictRows_first_field (seekStart s).content x j hfield hx
    have haw : a = some w := by
      have h3 := ha.symm.trans hw
      injection h3
    constructor
    · rw [hsa, haw]; exact Option.noConfusion
    · rw [hrev]; exact Option.noConfusion
  · intro row fname t hc
    obtain ⟨htype, hrev, -⟩ := wsecu_create_balance_inv row fname t hc
    exact ⟨htype, hrev⟩

/-- C9 witness: on the WSECU test file the ordinary row has both template
fields populated, and the balance record has `reversed_lineno` null. -/
theorem import_id_fields_amended_witness :
    templateFields WSECU.DEFAULT_IMPORT_ID = ["source_account", "reversed_lineno"] ∧
    (∀ u ∈ (WSECU.callBody wsecuFile).1, u.type = none →
      u.source_account ≠ none ∧ u.reversed_lineno ≠ none) ∧
    (wsecuBalanceTxn.type = some "BALANCE" ∧ wsecuBalanceTxn.reversed_lineno = none) := by
  have h := import_id_fields_amended
  exact ⟨h.1, h.2.1 wsecuFile (by decide) (by decide),
    h.2.2 wsecuAnchorRow none wsecuBalanceTxn (by decide)⟩

/-- C10: every modeled operation rewinds the stream before reading, so its
result is a function of the stream's content, name and mode alone — equal
for any two initial read positions — and a prior `detect()` call on the
same instance (which only moves the read position) does not change what a
subsequent operation returns. -/
theorem operations_position_independent (c : String) (nm : Option String) (b : Bool)
    (p q : Nat) (h : List String → String)
    (P : PyFile → Option AllyBankOFX.OfxStatement) :
    WSECU.detect ⟨c, p, nm, b⟩ = WSECU.detect ⟨c, q, nm, b⟩ ∧
    WSECU.fingerprint h ⟨c, p, nm, b⟩ = WSECU.fingerprint h ⟨c, q, nm, b⟩ ∧
    WSECU.callBody ⟨c, p, nm, b⟩ = WSECU.callBody ⟨c, q, nm, b⟩ ∧
    BacSanJose.detect ⟨c, p, nm, b⟩ = BacSanJose.detect ⟨c, q, nm, b⟩ ∧
    BacSanJose.fingerprint h ⟨c, p, nm, b⟩ = BacSanJose.fingerprint h ⟨c, q, nm, b⟩ ∧
    BacSanJose.callBody ⟨c, p, nm, b⟩ = BacSanJose.callBody ⟨c, q, nm, b⟩ ∧
    BacSanJoseCredit.detect ⟨c, p, nm, b⟩ = BacSanJoseCredit.detect ⟨c, q, nm, b⟩ ∧
    BacSanJoseCredit.fingerprint h ⟨c, p, nm, b⟩ = BacSanJoseCredit.fingerprint h ⟨c, q, nm, b⟩ ∧
    BacSanJoseCredit.callBody ⟨c, p, nm, b⟩ = BacSanJoseCredit.callBody ⟨c, q, nm, b⟩ ∧
    BancoNacional.detect ⟨c, p, nm, b⟩ = BancoNacional.detect ⟨c, q, nm, b⟩ ∧
    BancoNacional.fingerprint h ⟨c, p, nm, b⟩ = BancoNacional.fingerprint h ⟨c, q, nm, b⟩ ∧
    BancoNacional.callBody ⟨c, p, nm, b⟩ = BancoNacional.callBody ⟨c, q, nm, b⟩ ∧
    AllyBankOFX.detect ⟨c, p, nm, b⟩ = AllyBankOFX.detect ⟨c, q, nm, b⟩ ∧
    AllyBankOFX.fingerprint h P ⟨c, p, nm, b⟩ = AllyBankOFX.fingerprint h P ⟨c, q, nm, b⟩ ∧
    AllyBankOFX.callBody P ⟨c, p, nm, b⟩ = AllyBankOFX.callBody P ⟨c, q, nm, b⟩ ∧
    WSECU.fingerprint h ((WSECU.detect ⟨c, p, nm, b⟩).2) =
      WSECU.fingerprint h (seekStart ⟨c, q, nm, b⟩) ∧
    WSECU.callBody ((WSECU.detect ⟨c, p, nm, b⟩).2) = WSECU.callBody ⟨c, q, nm, b⟩ := by
  cases b <;>
    exact ⟨rfl, rfl, rfl, rfl, rfl, rfl, rfl, rfl, rfl, rfl, rfl, rfl, rfl, rfl, rfl, rfl, rfl⟩

end BeanhubExtract
